import Mathlib

/-!
Verification development for the accessibility rule-evaluation engine of the
Accessibility-Tester repository (src/app/api/accessibility-test/route.ts).

The engine is a pure function from a parsed HTML document tree to a report of
violations and passes.  We embed the document tree, the colour model
(hexToRgb, parseColor, getLuminance, getContrastRatio), the full rule engine
(runAccessibilityChecks) and the reduced rule engine from the second copy of
the route file, together with the serialization caps applied at the HTTP
boundary.  JavaScript strings are modelled as Lean strings, JS `null` results
of getAttribute as `Option String`, JS truthiness of strings as the predicate
`truthy` (null and empty string are falsy), and JS floating point arithmetic
of the contrast computation as exact real arithmetic.
-/

/-- Whitespace class used by JS `String.trim` and the `\s` regex class
(ASCII fragment, which covers all inputs handled by the engine). -/
def isWsC (c : Char) : Bool :=
  c = ' ' || c = '\t' || c = '\n' || c = '\r' || c = '\x0b' || c = '\x0c'

/-- Decimal digit test, the `\d` regex class. -/
def isDigitC (c : Char) : Bool := '0' ≤ c && c ≤ '9'

/-- Models JS `String.prototype.trim`. -/
def jsTrim (s : String) : String :=
  String.mk (((s.toList.dropWhile isWsC).reverse.dropWhile isWsC).reverse)

/-- Models JS `String.prototype.toLowerCase` on the ASCII range used by the
engine's fixed phrase lists and named-colour table. -/
def toLowerStr (s : String) : String :=
  String.mk (s.toList.map (fun c =>
    if 'A' ≤ c && c ≤ 'Z' then Char.ofNat (c.toNat + 32) else c))

/-- JS truthiness of a `string | null` value: `null` and `""` are falsy. -/
def truthy : Option String → Bool
  | none => false
  | some s => s != ""

/-- Models the JS idiom `x || d` on a `string | null` value `x`. -/
def jsOrStr (o : Option String) (d : String) : String :=
  match o with
  | some s => if s = "" then d else s
  | none => d

/-- Association-list lookup by string key, first match wins; models both the
JS `Map` used for link texts and the named-colour object lookup. -/
def alookup {β : Type} : List (String × β) → String → Option β
  | [], _ => none
  | (k, v) :: m, t => if k = t then some v else alookup m t

/-- Value of a decimal digit list, models `parseInt` on an all-digit string. -/
def natOfDigits (l : List Char) : Nat :=
  l.foldl (fun a c => a * 10 + (c.toNat - 48)) 0

/-- RGB colour record produced by `parseColor`; the source stores plain JS
numbers, which are natural numbers for every string the parser accepts. -/
structure RGB where
  r : Nat
  g : Nat
  b : Nat
deriving DecidableEq, Repr

/-- Hexadecimal digit test, the `[a-f\d]` class of the hex regex with the
case-insensitive flag. -/
def isHexDigitC (c : Char) : Bool :=
  ('0' ≤ c && c ≤ '9') || ('a' ≤ c && c ≤ 'f') || ('A' ≤ c && c ≤ 'F')

/-- Value of one hexadecimal digit. -/
def hexDigitVal (c : Char) : Nat :=
  if '0' ≤ c && c ≤ '9' then c.toNat - 48
  else if 'a' ≤ c && c ≤ 'f' then c.toNat - 87
  else if 'A' ≤ c && c ≤ 'F' then c.toNat - 55
  else 0

/-- Body of the hex regex after the optional `#`: exactly six hex digits,
combined pairwise with `parseInt(_, 16)`. -/
def hexMatchList : List Char → Option RGB
  | [a, b, c, d, e, f] =>
    if isHexDigitC a && isHexDigitC b && isHexDigitC c &&
       isHexDigitC d && isHexDigitC e && isHexDigitC f then
      some ⟨16 * hexDigitVal a + hexDigitVal b,
            16 * hexDigitVal c + hexDigitVal d,
            16 * hexDigitVal e + hexDigitVal f⟩
    else none
  | _ => none

/-- Models `hexToRgb`: the anchored regex
`^#?([a-f\d]2)([a-f\d]2)([a-f\d]2)$/i` over the whole string, an optional
leading `#` followed by exactly six hex digits. -/
def hexToRgb (s : String) : Option RGB :=
  hexMatchList (match s.toList with
    | '#' :: rest => rest
    | l => l)

/-- One attempt of the unanchored regex `rgb\((\d+),\s*(\d+),\s*(\d+)\)` at
the start of the character list (greedy `\d+` and `\s*` are deterministic
here because digits, whitespace, `,` and `)` are pairwise disjoint). -/
def rgbTryAt (s : List Char) : Option (Nat × Nat × Nat) :=
  if List.isPrefixOf ("rgb(".toList) s then
    let r1 := s.drop 4
    let d1 := r1.takeWhile isDigitC
    let r2 := r1.dropWhile isDigitC
    if d1 ≠ [] then
      match r2 with
      | ',' :: r3 =>
        let r4 := r3.dropWhile isWsC
        let d2 := r4.takeWhile isDigitC
        let r5 := r4.dropWhile isDigitC
        if d2 ≠ [] then
          match r5 with
          | ',' :: r6 =>
            let r7 := r6.dropWhile isWsC
            let d3 := r7.takeWhile isDigitC
            let r8 := r7.dropWhile isDigitC
            if d3 ≠ [] then
              match r8 with
              | ')' :: _ => some (natOfDigits d1, natOfDigits d2, natOfDigits d3)
              | _ => none
            else none
          | _ => none
        else none
      | _ => none
    else none
  else none

/-- Leftmost match of the unanchored rgb regex: try every start position from
the left, as `String.prototype.match` does. -/
def rgbSearch : List Char → Option (Nat × Nat × Nat)
  | [] => none
  | c :: rest =>
    match rgbTryAt (c :: rest) with
    | some v => some v
    | none => rgbSearch rest

/-- Named-colour table of `parseColor`. -/
def namedColors : List (String × RGB) :=
  [("black", ⟨0, 0, 0⟩), ("white", ⟨255, 255, 255⟩), ("red", ⟨255, 0, 0⟩),
   ("green", ⟨0, 128, 0⟩), ("blue", ⟨0, 0, 255⟩), ("yellow", ⟨255, 255, 0⟩),
   ("gray", ⟨128, 128, 128⟩), ("grey", ⟨128, 128, 128⟩)]

/-- Models `parseColor`: `#`-strings go to `hexToRgb`, strings starting with
`rgb` are searched with the unanchored rgb regex, and on failure control
falls through to the case-insensitive named-colour lookup. -/
def parseColor (s : String) : Option RGB :=
  if s.toList.head? = some '#' then hexToRgb s
  else
    match (if List.isPrefixOf ("rgb".toList) s.toList then rgbSearch s.toList else none) with
    | some (r, g, b) => some ⟨r, g, b⟩
    | none => alookup namedColors (toLowerStr s)

/-- Spec-side form, written from the specification's words for comparison
with the code: a 6-digit hex colour string `#rrggbb`, case-insensitive. -/
def specHexForm (s : String) : Bool :=
  match s.toList with
  | '#' :: rest => rest.length = 6 && rest.all isHexDigitC
  | _ => false

/-- Spec-side form, written from the specification's words for comparison
with the code: a string exactly of the shape `rgb(r, g, b)` with integer
channels and nothing before or after. -/
def specRgbExact (s : String) : Bool :=
  match s.toList with
  | 'r' :: 'g' :: 'b' :: '(' :: r1 =>
    let d1 := r1.takeWhile isDigitC
    let r2 := r1.dropWhile isDigitC
    if d1 ≠ [] then
      match r2 with
      | ',' :: r3 =>
        let r4 := r3.dropWhile isWsC
        let d2 := r4.takeWhile isDigitC
        let r5 := r4.dropWhile isDigitC
        if d2 ≠ [] then
          match r5 with
          | ',' :: r6 =>
            let r7 := r6.dropWhile isWsC
            let d3 := r7.takeWhile isDigitC
            let r8 := r7.dropWhile isDigitC
            d3 ≠ [] && r8 = [')']
          | _ => false
        else false
      | _ => false
    else false
  | _ => false

/-- Spec-side form: the fixed named-colour vocabulary, case-insensitive. -/
def specNamedForm (s : String) : Bool :=
  ["black", "white", "red", "green", "blue", "yellow", "gray", "grey"].contains
    (toLowerStr s)

/-- Parsed HTML tree node: an element with a (lowercase) tag name, an ordered
attribute list with unique keys, and ordered children, or a text node.
Supplied by the external DOM layer; the engine never mutates it. -/
inductive DomNode where
  | elem (tag : String) (attrs : List (String × String)) (children : List DomNode)
  | text (s : String)

/-- A parsed document: the root element (`document.documentElement`), absent
for a malformed document. -/
structure Document where
  root : Option DomNode

/-- Models `Element.tagName` (stored lowercase). -/
def DomNode.tagName : DomNode → String
  | .elem t _ _ => t
  | .text _ => ""

/-- Models `Element.getAttribute`: the attribute's string value or null. -/
def DomNode.attr : DomNode → String → Option String
  | .elem _ as _, k => alookup as k
  | .text _, _ => none

mutual

/-- Models `Node.textContent`: concatenated text of the whole subtree. -/
def DomNode.textContent : DomNode → String
  | .text s => s
  | .elem _ _ cs => textContentList cs

/-- Text content of a child list, in order. -/
def textContentList : List DomNode → String
  | [] => ""
  | n :: ns => DomNode.textContent n ++ textContentList ns

end

mutual

/-- All element nodes of a subtree in document (depth-first, pre-order)
sequence, the subtree itself included; this is the traversal order of
`querySelectorAll`. -/
def DomNode.preorder : DomNode → List DomNode
  | .text _ => []
  | .elem t a cs => DomNode.elem t a cs :: preorderList cs

/-- Pre-order elements of a child list. -/
def preorderList : List DomNode → List DomNode
  | [] => []
  | n :: ns => DomNode.preorder n ++ preorderList ns

end

/-- Serialized attribute list fragment of the markup serializer. -/
def attrsHTML : List (String × String) → String
  | [] => ""
  | (k, v) :: as => " " ++ k ++ "=\"" ++ v ++ "\"" ++ attrsHTML as

mutual

/-- Canonical markup serialization of a subtree, standing in for
`Element.outerHTML` (tag, attributes in stored order, children). -/
def DomNode.outerHTML : DomNode → String
  | .text s => s
  | .elem t a cs => "<" ++ t ++ attrsHTML a ++ ">" ++ innerHTMLList cs ++ "</" ++ t ++ ">"

/-- Serialized children of an element. -/
def innerHTMLList : List DomNode → String
  | [] => ""
  | n :: ns => DomNode.outerHTML n ++ innerHTMLList ns

end

/-- Proper-descendant elements of a node, in pre-order: the search scope of
`element.querySelectorAll` on that node. -/
def DomNode.descendants : DomNode → List DomNode
  | .elem _ _ cs => preorderList cs
  | .text _ => []

/-- Everything before the first `>` of a string: `s.split('>')[0]`. -/
def beforeGt (s : String) : String :=
  String.mk (s.toList.takeWhile (fun c => c ≠ '>'))

/-- One reported occurrence of a rule failing on one element:
`html excerpt, target selector(s), explanation` (interface AccessibilityNode). -/
structure ANode where
  html : String
  target : List String
  failureSummary : String
deriving DecidableEq, Repr

/-- One rule outcome classified as a violation (interface
AccessibilityViolation). -/
structure Violation where
  id : String
  impact : String
  description : String
  help : String
  helpUrl : String
  tags : List String
  nodes : List ANode
deriving DecidableEq, Repr

/-- One passed check (interface AccessibilityPass). -/
structure APass where
  id : String
  description : String
  help : String
deriving DecidableEq, Repr

/-- The engine's report value (interface AccessibilityResult). -/
structure AccessibilityResult where
  violations : List Violation
  passes : List APass
  incomplete : List Violation
deriving DecidableEq, Repr

/-- Enumeration of a list with indices starting at `i`, the index stream of a
JS `forEach((x, index) => ...)` loop. -/
def idxFrom {α : Type} (i : Nat) : List α → List (Nat × α)
  | [] => []
  | a :: as => (i, a) :: idxFrom (i + 1) as

/-- Models `document.querySelectorAll('img')` on a rooted document. -/
def imagesOf (r : DomNode) : List DomNode :=
  r.preorder.filter (fun e => e.tagName == "img")

/-- Condition of the full engine's image check: `alt === null`. -/
def fullAltMissing (alt : Option String) : Bool := alt.isNone

/-- Condition of the reduced engine's image check:
`!img.getAttribute('alt') && img.getAttribute('alt') !== ''`. -/
def reducedAltMissing (alt : Option String) : Bool :=
  !truthy alt && !(alt == some "")

/-- Finding for one image without alternative text. -/
def imgNode (e : DomNode) (i : Nat) : ANode :=
  ⟨e.outerHTML, ["img:nth-child(" ++ toString (i + 1) ++ ")"],
   "Image does not have an alt attribute"⟩

/-- Loop body of Check 1: collect images whose `alt` attribute is absent. -/
def imgFindingsFrom : Nat → List DomNode → List ANode
  | _, [] => []
  | i, e :: es =>
    (if fullAltMissing (e.attr "alt") then [imgNode e i] else []) ++
      imgFindingsFrom (i + 1) es

/-- Full engine's `imagesWithoutAlt` collection. -/
def imagesWithoutAlt (r : DomNode) : List ANode :=
  imgFindingsFrom 0 (imagesOf r)

/-- Models `document.querySelectorAll('input, textarea, select')`. -/
def formElementsOf (r : DomNode) : List DomNode :=
  r.preorder.filter (fun e =>
    e.tagName == "input" || e.tagName == "textarea" || e.tagName == "select")

/-- Effective input type: `element.getAttribute('type') || 'text'`. -/
def effType (e : DomNode) : String := jsOrStr (e.attr "type") "text"

/-- Input types skipped by the label check. -/
def excludedType (e : DomNode) : Bool :=
  ["hidden", "submit", "button", "reset", "image"].contains (effType e)

/-- Truthiness of `id && document.querySelector('label[for=id]')`. -/
def hasLabelB (r : DomNode) (e : DomNode) : Bool :=
  match e.attr "id" with
  | some id =>
    id != "" && r.preorder.any (fun l =>
      l.tagName == "label" && l.attr "for" == some id)
  | none => false

/-- No labelling mechanism at all:
`!hasLabel && !hasAriaLabel && !hasAriaLabelledby`. -/
def noLabelB (r : DomNode) (e : DomNode) : Bool :=
  !hasLabelB r e && !truthy (e.attr "aria-label") &&
    !truthy (e.attr "aria-labelledby")

/-- Finding for one form element without an accessible label. -/
def labelNode (e : DomNode) (i : Nat) : ANode :=
  ⟨e.outerHTML, [e.tagName ++ ":nth-child(" ++ toString (i + 1) ++ ")"],
   e.tagName ++ " element does not have an accessible label"⟩

/-- Loop body of Check 2 for the `label` rule: excluded input types are
skipped but still consume a loop index. -/
def labelFindingsFrom (r : DomNode) : Nat → List DomNode → List ANode
  | _, [] => []
  | i, e :: es =>
    (if excludedType e then []
     else if noLabelB r e then [labelNode e i] else []) ++
      labelFindingsFrom r (i + 1) es

/-- Full engine's `elementsWithoutLabels` collection. -/
def elementsWithoutLabels (r : DomNode) : List ANode :=
  labelFindingsFrom r 0 (formElementsOf r)

/-- Loop body of Check 2 for the `placeholder-as-label` rule. -/
def poorLabelFindingsFrom (r : DomNode) : Nat → List DomNode → List ANode
  | _, [] => []
  | i, e :: es =>
    (if excludedType e then []
     else if truthy (e.attr "placeholder") && noLabelB r e then
       [⟨e.outerHTML, [e.tagName ++ ":nth-child(" ++ toString (i + 1) ++ ")"],
         "Form element relies only on placeholder text for labeling"⟩]
     else []) ++ poorLabelFindingsFrom r (i + 1) es

/-- Full engine's `elementsWithPoorLabels` collection. -/
def elementsWithPoorLabels (r : DomNode) : List ANode :=
  poorLabelFindingsFrom r 0 (formElementsOf r)

/-- Models
`querySelectorAll('button, input[type="button"], input[type="submit"], input[type="reset"]')`. -/
def buttonsOf (r : DomNode) : List DomNode :=
  r.preorder.filter (fun e =>
    e.tagName == "button" ||
      (e.tagName == "input" &&
        (e.attr "type" == some "button" || e.attr "type" == some "submit" ||
          e.attr "type" == some "reset")))

/-- Accessible text of a button:
`text || value || ariaLabel || title`, each operand falsy when null/empty. -/
def buttonAccText (e : DomNode) : Option String :=
  let t := jsTrim e.textContent
  if t ≠ "" then some t
  else if truthy ((e.attr "value").map jsTrim) then (e.attr "value").map jsTrim
  else if truthy (e.attr "aria-label") then e.attr "aria-label"
  else if truthy (e.attr "title") then e.attr "title"
  else none

/-- Low-information button phrases. -/
def poorButtonPhrases : List String := ["click", "here", "more", "link", "button"]

/-- Loop body of Check 3 for the `button-name` rule. -/
def buttonNameFindingsFrom : Nat → List DomNode → List ANode
  | _, [] => []
  | i, e :: es =>
    (match buttonAccText e with
     | none =>
       [⟨e.outerHTML, ["button:nth-child(" ++ toString (i + 1) ++ ")"],
         "Button does not have accessible text"⟩]
     | some _ => []) ++ buttonNameFindingsFrom (i + 1) es

/-- Full engine's `buttonsWithoutText` collection. -/
def buttonsWithoutText (r : DomNode) : List ANode :=
  buttonNameFindingsFrom 0 (buttonsOf r)

/-- Loop body of Check 3 for the `button-text-quality` rule. -/
def buttonPoorFindingsFrom : Nat → List DomNode → List ANode
  | _, [] => []
  | i, e :: es =>
    (match buttonAccText e with
     | some t =>
       if poorButtonPhrases.contains (toLowerStr t) then
         [⟨e.outerHTML, ["button:nth-child(" ++ toString (i + 1) ++ ")"],
           "Button text \"" ++ t ++ "\" is not descriptive"⟩]
       else []
     | none => []) ++ buttonPoorFindingsFrom (i + 1) es

/-- Full engine's `buttonsWithPoorText` collection. -/
def buttonsWithPoorText (r : DomNode) : List ANode :=
  buttonPoorFindingsFrom 0 (buttonsOf r)

/-- Models `document.querySelectorAll('a[href]')`. -/
def linksOf (r : DomNode) : List DomNode :=
  r.preorder.filter (fun e => e.tagName == "a" && (e.attr "href").isSome)

/-- Accessible text of a link: `text || ariaLabel || title`. -/
def linkAccText (e : DomNode) : Option String :=
  let t := jsTrim e.textContent
  if t ≠ "" then some t
  else if truthy (e.attr "aria-label") then e.attr "aria-label"
  else if truthy (e.attr "title") then e.attr "title"
  else none

/-- The link's `href` attribute (present for every element of `linksOf`). -/
def hrefOf (e : DomNode) : String := (e.attr "href").getD ""

/-- Low-information link phrases. -/
def poorLinkPhrases : List String :=
  ["click here", "here", "more", "read more", "link", "continue"]

/-- Loop body of Check 4 for the `link-name` rule. -/
def linkNameFindingsFrom : Nat → List DomNode → List ANode
  | _, [] => []
  | i, e :: es =>
    (match linkAccText e with
     | none =>
       [⟨e.outerHTML, ["a:nth-child(" ++ toString (i + 1) ++ ")"],
         "Link does not have accessible text"⟩]
     | some _ => []) ++ linkNameFindingsFrom (i + 1) es

/-- Full engine's `linksWithoutText` collection. -/
def linksWithoutText (r : DomNode) : List ANode :=
  linkNameFindingsFrom 0 (linksOf r)

/-- Loop body of Check 4 for the `link-text-quality` rule. -/
def linkPoorFindingsFrom : Nat → List DomNode → List ANode
  | _, [] => []
  | i, e :: es =>
    (match linkAccText e with
     | some t =>
       if poorLinkPhrases.contains (toLowerStr t) then
         [⟨e.outerHTML, ["a:nth-child(" ++ toString (i + 1) ++ ")"],
           "Link text \"" ++ t ++ "\" is not descriptive"⟩]
       else []
     | none => []) ++ linkPoorFindingsFrom (i + 1) es

/-- Full engine's `linksWithPoorText` collection. -/
def linksWithPoorText (r : DomNode) : List ANode :=
  linkPoorFindingsFrom 0 (linksOf r)

/-- Finding for a later link re-using earlier accessible text with another
destination. -/
def linkDupNode (e : DomNode) (i : Nat) (t : String) : ANode :=
  ⟨e.outerHTML, ["a:nth-child(" ++ toString (i + 1) ++ ")"],
   "Multiple links with same text \"" ++ t ++ "\" lead to different destinations"⟩

/-- Loop body of Check 4 for the duplicate-text check: `linkTexts` is the JS
`Map` from accessible text to the first href seen, threaded through the loop;
`Map.set` appends, `Map.get` is `alookup`. -/
def sameTextFrom (m : List (String × String)) (i : Nat) :
    List DomNode → List ANode
  | [] => []
  | e :: es =>
    match linkAccText e with
    | none => sameTextFrom m (i + 1) es
    | some t =>
      match alookup m t with
      | some h =>
        (if h ≠ hrefOf e then [linkDupNode e i t] else []) ++
          sameTextFrom m (i + 1) es
      | none => sameTextFrom (m ++ [(t, hrefOf e)]) (i + 1) es

/-- Full engine's `linksWithSameText` collection. -/
def linksWithSameText (r : DomNode) : List ANode :=
  sameTextFrom [] 0 (linksOf r)

/-- Piecewise sRGB linearization of one normalized channel. -/
noncomputable def srgbLin (c : ℝ) : ℝ :=
  if c ≤ 0.03928 then c / 12.92 else ((c + 0.055) / 1.055) ^ (2.4 : ℝ)

/-- Models `getLuminance`: WCAG relative luminance of an RGB triple, with the
JS floating point arithmetic idealized as exact real arithmetic. -/
noncomputable def getLuminance (r g b : Nat) : ℝ :=
  0.2126 * srgbLin ((r : ℝ) / 255) + 0.7152 * srgbLin ((g : ℝ) / 255) +
    0.0722 * srgbLin ((b : ℝ) / 255)

/-- Models `getContrastRatio`: `(brightest + 0.05) / (darkest + 0.05)` over
the two luminances. -/
noncomputable def getContrastRatio (c1 c2 : RGB) : ℝ :=
  let lum1 := getLuminance c1.r c1.g c1.b
  let lum2 := getLuminance c2.r c2.g c2.b
  (max lum1 lum2 + 0.05) / (min lum1 lum2 + 0.05)

/-- Leftmost capture of the unanchored regex `key ++ \s*([^;]+)` inside a
style string: at each occurrence of `key`, greedy whitespace is skipped; if a
non-`;` character follows, the capture runs to the next `;` or the end;
otherwise the regex backtracks and captures the last whitespace character
(which the caller trims away to the empty string); with no whitespace at all
the position fails and the scan continues. -/
def styleCaptureFrom (key : List Char) : List Char → Option (List Char)
  | [] => none
  | c :: rest =>
    if List.isPrefixOf key (c :: rest) then
      let after := (c :: rest).drop key.length
      let ws := after.takeWhile isWsC
      let body := after.dropWhile isWsC
      match body with
      | b :: _ =>
        if b = ';' then
          match ws.getLast? with
          | some w => some [w]
          | none => styleCaptureFrom key rest
        else some (body.takeWhile (fun ch => ch ≠ ';'))
      | [] =>
        match ws.getLast? with
        | some w => some [w]
        | none => styleCaptureFrom key rest
    else styleCaptureFrom key rest

/-- Capture of `/color:\s*([^;]+)/` (note: its leftmost occurrence may lie
inside `background-color:`). -/
def colorCapture (style : String) : Option String :=
  (styleCaptureFrom ("color:".toList) style.toList).map String.mk

/-- Capture of `/background-color:\s*([^;]+)/`. -/
def bgColorCapture (style : String) : Option String :=
  (styleCaptureFrom ("background-color:".toList) style.toList).map String.mk

/-- Leftmost digit capture of `/font-size:\s*(\d+)px/`. -/
def fontSizeCaptureFrom : List Char → Option (List Char)
  | [] => none
  | c :: rest =>
    if List.isPrefixOf ("font-size:".toList) (c :: rest) then
      let body := ((c :: rest).drop 10).dropWhile isWsC
      let digs := body.takeWhile isDigitC
      if digs ≠ [] && List.isPrefixOf ("px".toList) (body.drop digs.length) then
        some digs
      else fontSizeCaptureFrom rest
    else fontSizeCaptureFrom rest

/-- Font size used by the contrast check:
`parseInt((style.match(/font-size:\s*(\d+)px/) || ['','14'])[1]) || 14`. -/
def fontSizeOf (style : String) : Nat :=
  match fontSizeCaptureFrom style.toList with
  | some digs => if natOfDigits digs = 0 then 14 else natOfDigits digs
  | none => 14

/-- Substring test, models `String.prototype.includes`. -/
def containsSub (needle : String) : List Char → Bool
  | [] => needle.toList = []
  | c :: rest => List.isPrefixOf needle.toList (c :: rest) || containsSub needle rest

/-- Tags of text-bearing elements scanned by the contrast check. -/
def textElementTags : List String :=
  ["p", "h1", "h2", "h3", "h4", "h5", "h6", "span", "div", "a", "button",
   "label", "li"]

/-- Models `document.querySelectorAll('p, h1, ..., li')`. -/
def textElementsOf (r : DomNode) : List DomNode :=
  r.preorder.filter (fun e => textElementTags.contains e.tagName)

/-- Idealized model of JS `Number.prototype.toFixed(2)` on a real number:
round half up to two decimal places and print. -/
noncomputable def toFixed2 (x : ℝ) : String :=
  let n : ℤ := ⌊x * 100 + 1 / 2⌋
  toString (n / 100) ++ "." ++
    (if n.natAbs % 100 < 10 then "0" ++ toString (n.natAbs % 100)
     else toString (n.natAbs % 100))

/-- Floating-point-free prefix of the contrast check on one text element:
skip when the element has no trimmed text, when one of the two inline colour
declarations is missing, or when one of them fails to parse; otherwise
return the two colours together with the large-text flag (font size at least
18, or at least 14 with an inline bold weight). -/
def contrastPre (e : DomNode) : Option (RGB × RGB × Bool) :=
  let style := jsOrStr (e.attr "style") ""
  if jsTrim e.textContent = "" then none
  else
    match colorCapture style, bgColorCapture style with
    | some cm, some bm =>
      (match parseColor (jsTrim cm), parseColor (jsTrim bm) with
       | some tc, some bc =>
         let size := fontSizeOf style
         some (tc, bc,
           (18 ≤ size) || (14 ≤ size && containsSub "font-weight: bold" style.toList))
       | _, _ => none)
    | _, _ => none

/-- Contrast findings contributed by one text element: compare the computed
ratio with the size-dependent threshold (3 for large text, else 4.5). -/
noncomputable def contrastCheckElem (e : DomNode) (i : Nat) : List ANode :=
  match contrastPre e with
  | some (tc, bc, isLarge) =>
    if getContrastRatio tc bc < (if isLarge then (3 : ℝ) else 4.5) then
      [⟨e.outerHTML,
        [e.tagName ++ ":nth-child(" ++ toString (i + 1) ++ ")"],
        "Text has insufficient color contrast (" ++
          toFixed2 (getContrastRatio tc bc) ++ ":1, requires " ++
          (if isLarge then "3" else "4.5") ++ ":1)"⟩]
    else []
  | none => []

/-- Loop body of Check 5 over the text elements. -/
noncomputable def contrastFindingsFrom : Nat → List DomNode → List ANode
  | _, [] => []
  | i, e :: es => contrastCheckElem e i ++ contrastFindingsFrom (i + 1) es

/-- Full engine's `contrastIssues` collection (uncapped; the cap to 10 is
applied when the violation is pushed). -/
noncomputable def contrastIssues (r : DomNode) : List ANode :=
  contrastFindingsFrom 0 (textElementsOf r)

/-- First `<title>` element of the document, `document.querySelector('title')`. -/
def titleElemOf (r : DomNode) : Option DomNode :=
  r.preorder.find? (fun e => e.tagName == "title")

/-- Truthiness of `title && title.textContent?.trim()`. -/
def titleOkB (r : DomNode) : Bool :=
  match titleElemOf r with
  | some t => jsTrim t.textContent != ""
  | none => false

/-- Models `document.querySelectorAll('h1')`. -/
def h1sOf (r : DomNode) : List DomNode :=
  r.preorder.filter (fun e => e.tagName == "h1")

/-- Truthiness of `htmlElement.getAttribute('lang')`. -/
def langOkB (r : DomNode) : Bool := truthy (r.attr "lang")

/-- Truthiness of `document.querySelector('meta[name="viewport"]')`. -/
def metaViewportB (r : DomNode) : Bool :=
  r.preorder.any (fun e => e.tagName == "meta" && e.attr "name" == some "viewport")

/-- Models `document.querySelectorAll('h1, h2, h3, h4, h5, h6')`. -/
def headingsOf (r : DomNode) : List DomNode :=
  r.preorder.filter (fun e =>
    ["h1", "h2", "h3", "h4", "h5", "h6"].contains e.tagName)

/-- Heading level, `parseInt(heading.tagName.charAt(1))` (0 stands for the
NaN that a non-digit character would produce; unreachable for h1..h6). -/
def levelOf (h : DomNode) : Nat :=
  match h.tagName.toList with
  | _ :: c :: _ => if isDigitC c then c.toNat - 48 else 0
  | _ => 0

/-- Finding for a heading that skips levels, reported against the later
heading of the offending consecutive pair. -/
def skipNode (prev : Nat) (h : DomNode) : ANode :=
  ⟨h.outerHTML, [h.tagName],
   "Heading level skips from h" ++ toString prev ++ " to h" ++
     toString (levelOf h)⟩

/-- Loop body of Check 7: each heading is compared with the level of the
immediately preceding heading, carried as `prev`. -/
def skippedFrom (prev : Nat) : List DomNode → List ANode
  | [] => []
  | h :: hs =>
    (if prev + 1 < levelOf h then [skipNode prev h] else []) ++
      skippedFrom (levelOf h) hs

/-- Full engine's `skippedHeadings` collection: the first heading is never
flagged (`index > 0` guard). -/
def skippedHeadings (r : DomNode) : List ANode :=
  match headingsOf r with
  | [] => []
  | h :: hs => skippedFrom (levelOf h) hs

/-- Full engine's `emptyHeadings` collection. -/
def emptyHeadings (r : DomNode) : List ANode :=
  (headingsOf r).filterMap (fun h =>
    if jsTrim h.textContent = "" then
      some ⟨h.outerHTML, [h.tagName], "Heading is empty"⟩
    else none)

/-- Models `document.querySelectorAll('table')`. -/
def tablesOf (r : DomNode) : List DomNode :=
  r.preorder.filter (fun e => e.tagName == "table")

/-- Loop body of Check 8: tables with no `th` descendant. -/
def tableFindingsFrom : Nat → List DomNode → List ANode
  | _, [] => []
  | i, t :: ts =>
    (if t.descendants.any (fun e => e.tagName == "th") then []
     else
       [⟨String.mk (t.outerHTML.toList.take 200) ++ "...",
         ["table:nth-child(" ++ toString (i + 1) ++ ")"],
         "Data table does not have header cells"⟩]) ++
      tableFindingsFrom (i + 1) ts

/-- Full engine's `tablesWithoutHeaders` collection. -/
def tablesWithoutHeaders (r : DomNode) : List ANode :=
  tableFindingsFrom 0 (tablesOf r)

/-- The `image-alt` violation RuleResult. -/
def imageAltViolation (r : DomNode) : Violation :=
  ⟨"image-alt", "critical", "Images must have alternative text",
   "Images must have alternate text", "https://webaim.org/techniques/alttext/",
   ["wcag2a", "wcag111", "cat.text-alternatives"], imagesWithoutAlt r⟩

/-- The `label` violation RuleResult. -/
def labelViolation (r : DomNode) : Violation :=
  ⟨"label", "critical", "Form elements must have labels",
   "Form elements must have labels",
   "https://webaim.org/techniques/forms/controls",
   ["wcag2a", "wcag412", "wcag131", "cat.forms"], elementsWithoutLabels r⟩

/-- The `placeholder-as-label` violation RuleResult. -/
def placeholderViolation (r : DomNode) : Violation :=
  ⟨"placeholder-as-label", "serious",
   "Placeholder text should not be used as the only form of labeling",
   "Placeholder text cannot replace proper labels",
   "https://webaim.org/techniques/forms/advanced#placeholder",
   ["wcag2a", "wcag131", "cat.forms"], elementsWithPoorLabels r⟩

/-- The `button-name` violation RuleResult. -/
def buttonNameViolation (r : DomNode) : Violation :=
  ⟨"button-name", "critical", "Buttons must have discernible text",
   "Buttons must have discernible text",
   "https://webaim.org/techniques/forms/controls#button",
   ["wcag2a", "wcag412", "cat.name-role-value"], buttonsWithoutText r⟩

/-- The `button-text-quality` violation RuleResult. -/
def buttonTextViolation (r : DomNode) : Violation :=
  ⟨"button-text-quality", "moderate", "Button text should be descriptive",
   "Button text should clearly describe the button\x27s function",
   "https://webaim.org/techniques/hypertext/hypertext_links#link_text",
   ["wcag2a", "wcag244", "cat.name-role-value"], buttonsWithPoorText r⟩

/-- The `link-name` violation RuleResult. -/
def linkNameViolation (r : DomNode) : Violation :=
  ⟨"link-name", "serious", "Links must have discernible text",
   "Links must have discernible text",
   "https://webaim.org/techniques/hypertext/hypertext_links#link_text",
   ["wcag2a", "wcag244", "wcag412", "cat.name-role-value"], linksWithoutText r⟩

/-- The `link-text-quality` violation RuleResult. -/
def linkTextViolation (r : DomNode) : Violation :=
  ⟨"link-text-quality", "moderate", "Link text should be descriptive",
   "Link text should clearly describe the link\x27s destination or function",
   "https://webaim.org/techniques/hypertext/hypertext_links#link_text",
   ["wcag2a", "wcag244", "cat.name-role-value"], linksWithPoorText r⟩

/-- The `color-contrast` violation RuleResult; its findings are capped at 10
inside the evaluator (`contrastIssues.slice(0, 10)`). -/
noncomputable def colorContrastViolation (r : DomNode) : Violation :=
  ⟨"color-contrast", "serious", "Text must have sufficient color contrast",
   "Text must have a contrast ratio of at least 4.5:1 (3:1 for large text)",
   "https://webaim.org/articles/contrast/",
   ["wcag2aa", "wcag143", "cat.color"], (contrastIssues r).take 10⟩

/-- The `document-title` violation RuleResult. -/
def documentTitleViolation (r : DomNode) : Violation :=
  ⟨"document-title", "serious",
   "Documents must have a title to aid in navigation",
   "Documents must have <title> element to aid in navigation",
   "https://webaim.org/techniques/pagetitles/",
   ["wcag2a", "wcag242", "cat.text-alternatives"],
   [⟨(match titleElemOf r with
      | some t => t.outerHTML
      | none => "<title></title>"),
     ["title"], "Document does not have a title"⟩]⟩

/-- The `page-has-heading-one` violation RuleResult. -/
def pageHasH1Violation : Violation :=
  ⟨"page-has-heading-one", "moderate",
   "Page should have a heading structure that starts with h1",
   "Page must contain a level-one heading",
   "https://webaim.org/techniques/semanticstructure/",
   ["wcag2a", "wcag131", "cat.semantics"],
   [⟨"<body>", ["body"], "Page does not contain a heading (h1)"⟩]⟩

/-- Nodes of the `multiple-h1` violation: all h1 elements but the first. -/
def multipleH1Nodes (r : DomNode) : List ANode :=
  (idxFrom 0 ((h1sOf r).drop 1)).map (fun p =>
    ⟨p.2.outerHTML, ["h1:nth-child(" ++ toString (p.1 + 2) ++ ")"],
     "Multiple h1 headings found"⟩)

/-- The `multiple-h1` violation RuleResult. -/
def multipleH1Violation (r : DomNode) : Violation :=
  ⟨"multiple-h1", "moderate",
   "Page should not have more than one h1 heading",
   "Page should have only one main heading (h1)",
   "https://webaim.org/techniques/semanticstructure/",
   ["wcag2a", "wcag131", "cat.semantics"], multipleH1Nodes r⟩

/-- The `html-has-lang` violation RuleResult. -/
def htmlLangViolation (r : DomNode) : Violation :=
  ⟨"html-has-lang", "serious", "The html element must have a lang attribute",
   "<html> element must have a lang attribute",
   "https://webaim.org/techniques/language/",
   ["wcag2a", "wcag311", "cat.language"],
   [⟨beforeGt r.outerHTML ++ ">", ["html"],
     "The <html> element does not have a lang attribute"⟩]⟩

/-- The `meta-viewport` violation RuleResult. -/
def metaViewportViolation : Violation :=
  ⟨"meta-viewport", "moderate",
   "Viewport meta tag should be present for responsive design",
   "Viewport meta tag should be included for mobile accessibility",
   "https://webaim.org/articles/mobile/",
   ["wcag2a", "cat.mobile"],
   [⟨"<head>", ["head"], "Viewport meta tag is missing"⟩]⟩

/-- The `heading-order` violation RuleResult. -/
def headingOrderViolation (r : DomNode) : Violation :=
  ⟨"heading-order", "moderate", "Heading levels should only increase by one",
   "Heading levels should only increase by one",
   "https://webaim.org/techniques/semanticstructure/",
   ["wcag2a", "wcag131", "cat.semantics"], skippedHeadings r⟩

/-- The `empty-heading` violation RuleResult. -/
def emptyHeadingViolation (r : DomNode) : Violation :=
  ⟨"empty-heading", "serious", "Headings must not be empty",
   "Headings must contain text",
   "https://webaim.org/techniques/semanticstructure/",
   ["wcag2a", "wcag131", "cat.semantics"], emptyHeadings r⟩

/-- The `table-headers` violation RuleResult. -/
def tableHeadersViolation (r : DomNode) : Violation :=
  ⟨"table-headers", "serious", "Data tables should have table headers",
   "Data tables should have table headers (th elements)",
   "https://webaim.org/techniques/tables/data",
   ["wcag2a", "wcag131", "cat.tables"], tablesWithoutHeaders r⟩

/-- The Check 6 `if/else if` on the number of h1 elements. -/
def h1Segment (r : DomNode) : List Violation :=
  if (h1sOf r).length = 0 then [pageHasH1Violation]
  else if 1 < (h1sOf r).length then [multipleH1Violation r]
  else []

/-- Violations list of the full engine, one conditional push per rule, in
source order.  The collections `decorativeImages`,
`elementsWithoutRequiredIndicator`, `linksWithSameText` and
`tablesWithoutCaption` are computed by the source but never pushed, so they
do not appear here. -/
noncomputable def violationsOf (r : DomNode) : List Violation :=
  (if 0 < (imagesWithoutAlt r).length then [imageAltViolation r] else []) ++
  (if 0 < (elementsWithoutLabels r).length then [labelViolation r] else []) ++
  (if 0 < (elementsWithPoorLabels r).length then [placeholderViolation r] else []) ++
  (if 0 < (buttonsWithoutText r).length then [buttonNameViolation r] else []) ++
  (if 0 < (buttonsWithPoorText r).length then [buttonTextViolation r] else []) ++
  (if 0 < (linksWithoutText r).length then [linkNameViolation r] else []) ++
  (if 0 < (linksWithPoorText r).length then [linkTextViolation r] else []) ++
  (if 0 < (contrastIssues r).length then [colorContrastViolation r] else []) ++
  (if titleOkB r then [] else [documentTitleViolation r]) ++
  h1Segment r ++
  (if langOkB r then [] else [htmlLangViolation r]) ++
  (if metaViewportB r then [] else [metaViewportViolation]) ++
  (if 0 < (skippedHeadings r).length then [headingOrderViolation r] else []) ++
  (if 0 < (emptyHeadings r).length then [emptyHeadingViolation r] else []) ++
  (if 0 < (tablesWithoutHeaders r).length then [tableHeadersViolation r] else [])

/-- Passes list of the full engine: the `passChecks` table followed by the
conditional pushes, in source order.  Note the ids `form-labels`,
`button-names`, `link-names` and `heading-structure`. -/
def passesOf (r : DomNode) : List APass :=
  (if 0 < (imagesOf r).length ∧ (imagesWithoutAlt r).length = 0 then
    [⟨"image-alt", "Images have alternative text", "Images have alternative text"⟩]
   else []) ++
  (if titleOkB r then
    [⟨"document-title", "Document has a title", "Document has a title"⟩]
   else []) ++
  (if langOkB r then
    [⟨"html-has-lang", "HTML element has lang attribute",
      "HTML element has lang attribute"⟩]
   else []) ++
  (if (h1sOf r).length = 1 then
    [⟨"page-has-heading-one", "Page has exactly one h1 heading",
      "Page has exactly one h1 heading"⟩]
   else []) ++
  (if metaViewportB r then
    [⟨"meta-viewport", "Viewport meta tag is present",
      "Viewport meta tag is present"⟩]
   else []) ++
  (if 0 < (formElementsOf r).length ∧ (elementsWithoutLabels r).length = 0 then
    [⟨"form-labels", "Form elements have proper labels",
      "Form elements have proper labels"⟩]
   else []) ++
  (if 0 < (buttonsOf r).length ∧ (buttonsWithoutText r).length = 0 then
    [⟨"button-names", "Buttons have accessible names",
      "Buttons have accessible names"⟩]
   else []) ++
  (if 0 < (linksOf r).length ∧ (linksWithoutText r).length = 0 then
    [⟨"link-names", "Links have accessible names",
      "Links have accessible names"⟩]
   else []) ++
  (if 0 < (headingsOf r).length ∧ (skippedHeadings r).length = 0 then
    [⟨"heading-structure", "Heading structure is logical",
      "Heading structure is logical"⟩]
   else [])

/-- Models the full `runAccessibilityChecks` on a document with a root
element: violations, passes and the always-empty incomplete list. -/
noncomputable def runAccessibilityChecks (r : DomNode) : AccessibilityResult :=
  ⟨violationsOf r, passesOf r, []⟩

/-- Error raised while evaluating a document: a JS TypeError from a null
access, or the distinct invalid-document error the specification asks for
(never produced by the code, declared so the distinction is statable). -/
inductive JsError where
  | typeError
  | invalidDocument
deriving DecidableEq, Repr

/-- Evaluation at the document boundary: with an absent root element the
source has no validity check and crashes with a TypeError when Check 6
reads `documentElement.getAttribute('lang')` on null, so no report is
returned; with a root present the full engine runs. -/
noncomputable def runAccessibilityChecksDoc (d : Document) :
    Except JsError AccessibilityResult :=
  match d.root with
  | none => .error .typeError
  | some r => .ok (runAccessibilityChecks r)

/-- Serialization of one violation at the HTTP boundary: the node list is
truncated to its first five entries (`nodes.slice(0, 5)`), the other fields
are copied. -/
def serializeViolation (v : Violation) : Violation :=
  { v with nodes := v.nodes.take 5 }

/-- Serialization of the whole report at the HTTP boundary (`POST`): the
per-violation cap is applied uniformly to violations and incomplete. -/
def serializeReport (res : AccessibilityResult) : AccessibilityResult :=
  ⟨res.violations.map serializeViolation, res.passes,
   res.incomplete.map serializeViolation⟩

namespace ReducedEngine

/-- Loop body of the reduced engine's image check, whose condition is
`!img.getAttribute('alt') && img.getAttribute('alt') !== ''`; the node
fields are identical to the full engine's. -/
def imgFindingsFrom : Nat → List DomNode → List ANode
  | _, [] => []
  | i, e :: es =>
    (if reducedAltMissing (e.attr "alt") then [imgNode e i] else []) ++
      imgFindingsFrom (i + 1) es

/-- Reduced engine's `imagesWithoutAlt` collection. -/
def imagesWithoutAlt (r : DomNode) : List ANode :=
  imgFindingsFrom 0 (imagesOf r)

end ReducedEngine

/-- Membership in a conditionally-present singleton segment. -/
lemma mem_ifNil {α : Type} {c : Prop} [Decidable c] {v a : α} :
    (v ∈ if c then [a] else []) ↔ c ∧ v = a := by
  split
  · simp_all
  · simp_all

/-- Membership in an inverted conditional singleton segment. -/
lemma mem_nilIf {α : Type} {c : Prop} [Decidable c] {v a : α} :
    (v ∈ if c then [] else [a]) ↔ ¬c ∧ v = a := by
  split
  · simp_all
  · simp_all

/-- Membership in the h1 if/else-if segment. -/
lemma mem_h1Segment {r : DomNode} {v : Violation} :
    v ∈ h1Segment r ↔
      ((h1sOf r).length = 0 ∧ v = pageHasH1Violation) ∨
      ((h1sOf r).length ≠ 0 ∧ 1 < (h1sOf r).length ∧ v = multipleH1Violation r) := by
  unfold h1Segment
  split
  · simp_all
  · split
    · simp_all
    · simp_all

/-- Every member of the violations list is one of the sixteen rule entries,
present exactly under its source condition. -/
lemma mem_violationsOf {r : DomNode} {v : Violation} :
    v ∈ violationsOf r ↔
      (0 < (imagesWithoutAlt r).length ∧ v = imageAltViolation r) ∨
      (0 < (elementsWithoutLabels r).length ∧ v = labelViolation r) ∨
      (0 < (elementsWithPoorLabels r).length ∧ v = placeholderViolation r) ∨
      (0 < (buttonsWithoutText r).length ∧ v = buttonNameViolation r) ∨
      (0 < (buttonsWithPoorText r).length ∧ v = buttonTextViolation r) ∨
      (0 < (linksWithoutText r).length ∧ v = linkNameViolation r) ∨
      (0 < (linksWithPoorText r).length ∧ v = linkTextViolation r) ∨
      (0 < (contrastIssues r).length ∧ v = colorContrastViolation r) ∨
      (¬titleOkB r = true ∧ v = documentTitleViolation r) ∨
      ((h1sOf r).length = 0 ∧ v = pageHasH1Violation) ∨
      ((h1sOf r).length ≠ 0 ∧ 1 < (h1sOf r).length ∧ v = multipleH1Violation r) ∨
      (¬langOkB r = true ∧ v = htmlLangViolation r) ∨
      (¬metaViewportB r = true ∧ v = metaViewportViolation) ∨
      (0 < (skippedHeadings r).length ∧ v = headingOrderViolation r) ∨
      (0 < (emptyHeadings r).length ∧ v = emptyHeadingViolation r) ∨
      (0 < (tablesWithoutHeaders r).length ∧ v = tableHeadersViolation r) := by
  unfold violationsOf
  simp only [List.mem_append, mem_ifNil, mem_nilIf, mem_h1Segment, or_assoc]

/-- Every member of the passes list is one of the nine pass entries, present
exactly under its source condition. -/
lemma mem_passesOf {r : DomNode} {p : APass} :
    p ∈ passesOf r ↔
      ((0 < (imagesOf r).length ∧ (imagesWithoutAlt r).length = 0) ∧
        p = ⟨"image-alt", "Images have alternative text",
             "Images have alternative text"⟩) ∨
      (titleOkB r = true ∧
        p = ⟨"document-title", "Document has a title", "Document has a title"⟩) ∨
      (langOkB r = true ∧
        p = ⟨"html-has-lang", "HTML element has lang attribute",
             "HTML element has lang attribute"⟩) ∨
      ((h1sOf r).length = 1 ∧
        p = ⟨"page-has-heading-one", "Page has exactly one h1 heading",
             "Page has exactly one h1 heading"⟩) ∨
      (metaViewportB r = true ∧
        p = ⟨"meta-viewport", "Viewport meta tag is present",
             "Viewport meta tag is present"⟩) ∨
      ((0 < (formElementsOf r).length ∧ (elementsWithoutLabels r).length = 0) ∧
        p = ⟨"form-labels", "Form elements have proper labels",
             "Form elements have proper labels"⟩) ∨
      ((0 < (buttonsOf r).length ∧ (buttonsWithoutText r).length = 0) ∧
        p = ⟨"button-names", "Buttons have accessible names",
             "Buttons have accessible names"⟩) ∨
      ((0 < (linksOf r).length ∧ (linksWithoutText r).length = 0) ∧
        p = ⟨"link-names", "Links have accessible names",
             "Links have accessible names"⟩) ∨
      ((0 < (headingsOf r).length ∧ (skippedHeadings r).length = 0) ∧
        p = ⟨"heading-structure", "Heading structure is logical",
             "Heading structure is logical"⟩) := by
  unfold passesOf
  simp only [List.mem_append, mem_ifNil, or_assoc]

/-- The sixteen rule ids the engine can ever push as violations. -/
def allViolationIds : List String :=
  ["image-alt", "label", "placeholder-as-label", "button-name",
   "button-text-quality", "link-name", "link-text-quality", "color-contrast",
   "document-title", "page-has-heading-one", "multiple-h1", "html-has-lang",
   "meta-viewport", "heading-order", "empty-heading", "table-headers"]

/-- The nine pass ids the engine can ever push. -/
def allPassIds : List String :=
  ["image-alt", "document-title", "html-has-lang", "page-has-heading-one",
   "meta-viewport", "form-labels", "button-names", "link-names",
   "heading-structure"]

/-- Violation ids stay within the sixteen-id inventory. -/
lemma violations_id_mem_all {r : DomNode} :
    ∀ v ∈ violationsOf r, v.id ∈ allViolationIds := by
  intro v hv
  rcases mem_violationsOf.mp hv with
    ⟨_, rfl⟩ | ⟨_, rfl⟩ | ⟨_, rfl⟩ | ⟨_, rfl⟩ | ⟨_, rfl⟩ | ⟨_, rfl⟩ | ⟨_, rfl⟩ |
    ⟨_, rfl⟩ | ⟨_, rfl⟩ | ⟨_, rfl⟩ | ⟨_, _, rfl⟩ | ⟨_, rfl⟩ | ⟨_, rfl⟩ |
    ⟨_, rfl⟩ | ⟨_, rfl⟩ | ⟨_, rfl⟩
  all_goals simp [allViolationIds, imageAltViolation, labelViolation, placeholderViolation, buttonNameViolation, buttonTextViolation, linkNameViolation, linkTextViolation, colorContrastViolation, documentTitleViolation, pageHasH1Violation, multipleH1Violation, htmlLangViolation, metaViewportViolation, headingOrderViolation, emptyHeadingViolation, tableHeadersViolation]

/-- Pass ids stay within the nine-id inventory. -/
lemma passes_id_mem_all {r : DomNode} :
    ∀ p ∈ passesOf r, p.id ∈ allPassIds := by
  intro p hp
  rcases mem_passesOf.mp hp with
    ⟨_, rfl⟩ | ⟨_, rfl⟩ | ⟨_, rfl⟩ | ⟨_, rfl⟩ | ⟨_, rfl⟩ | ⟨_, rfl⟩ |
    ⟨_, rfl⟩ | ⟨_, rfl⟩ | ⟨_, rfl⟩
  all_goals simp [allPassIds]

/-- A string outside the violation-id inventory is never a violation id. -/
lemma violationIds_contains_false {r : DomNode} {s : String}
    (hs : s ∉ allViolationIds) :
    (((runAccessibilityChecks r).violations).map (fun v => v.id)).contains s
      = false := by
  have h : s ∉ ((runAccessibilityChecks r).violations).map (fun v => v.id) := by
    intro hmem
    rcases List.mem_map.mp hmem with ⟨v, hv, hid⟩
    exact hs (hid ▸ violations_id_mem_all v hv)
  simpa using h

/-- A string outside the pass-id inventory is never a pass id. -/
lemma passIds_contains_false {r : DomNode} {s : String}
    (hs : s ∉ allPassIds) :
    (((runAccessibilityChecks r).passes).map (fun p => p.id)).contains s
      = false := by
  have h : s ∉ ((runAccessibilityChecks r).passes).map (fun p => p.id) := by
    intro hmem
    rcases List.mem_map.mp hmem with ⟨p, hp, hid⟩
    exact hs (hid ▸ passes_id_mem_all p hp)
  simpa using h

/-- Characterization of pass-id membership by the nine source conditions. -/
lemma mem_passIds {r : DomNode} {s : String} :
    s ∈ (passesOf r).map (fun p => p.id) ↔
      ((0 < (imagesOf r).length ∧ (imagesWithoutAlt r).length = 0) ∧
        s = "image-alt") ∨
      (titleOkB r = true ∧ s = "document-title") ∨
      (langOkB r = true ∧ s = "html-has-lang") ∨
      ((h1sOf r).length = 1 ∧ s = "page-has-heading-one") ∨
      (metaViewportB r = true ∧ s = "meta-viewport") ∨
      ((0 < (formElementsOf r).length ∧ (elementsWithoutLabels r).length = 0) ∧
        s = "form-labels") ∨
      ((0 < (buttonsOf r).length ∧ (buttonsWithoutText r).length = 0) ∧
        s = "button-names") ∨
      ((0 < (linksOf r).length ∧ (linksWithoutText r).length = 0) ∧
        s = "link-names") ∨
      ((0 < (headingsOf r).length ∧ (skippedHeadings r).length = 0) ∧
        s = "heading-structure") := by
  rw [List.mem_map]
  constructor
  · rintro ⟨p, hp, rfl⟩
    rcases mem_passesOf.mp hp with
      ⟨hc, rfl⟩ | ⟨hc, rfl⟩ | ⟨hc, rfl⟩ | ⟨hc, rfl⟩ | ⟨hc, rfl⟩ | ⟨hc, rfl⟩ |
      ⟨hc, rfl⟩ | ⟨hc, rfl⟩ | ⟨hc, rfl⟩
    · exact Or.inl ⟨hc, rfl⟩
    · exact Or.inr (Or.inl ⟨hc, rfl⟩)
    · exact Or.inr (Or.inr (Or.inl ⟨hc, rfl⟩))
    · exact Or.inr (Or.inr (Or.inr (Or.inl ⟨hc, rfl⟩)))
    · exact Or.inr (Or.inr (Or.inr (Or.inr (Or.inl ⟨hc, rfl⟩))))
    · exact Or.inr (Or.inr (Or.inr (Or.inr (Or.inr (Or.inl ⟨hc, rfl⟩)))))
    · exact Or.inr (Or.inr (Or.inr (Or.inr (Or.inr (Or.inr (Or.inl ⟨hc, rfl⟩))))))
    · exact Or.inr (Or.inr (Or.inr (Or.inr (Or.inr (Or.inr (Or.inr
        (Or.inl ⟨hc, rfl⟩)))))))
    · exact Or.inr (Or.inr (Or.inr (Or.inr (Or.inr (Or.inr (Or.inr
        (Or.inr ⟨hc, rfl⟩)))))))
  · rintro (⟨hc, rfl⟩ | ⟨hc, rfl⟩ | ⟨hc, rfl⟩ | ⟨hc, rfl⟩ | ⟨hc, rfl⟩ |
      ⟨hc, rfl⟩ | ⟨hc, rfl⟩ | ⟨hc, rfl⟩ | ⟨hc, rfl⟩)
    · exact ⟨_, mem_passesOf.mpr (Or.inl ⟨hc, rfl⟩), rfl⟩
    · exact ⟨_, mem_passesOf.mpr (Or.inr (Or.inl ⟨hc, rfl⟩)), rfl⟩
    · exact ⟨_, mem_passesOf.mpr (Or.inr (Or.inr (Or.inl ⟨hc, rfl⟩))), rfl⟩
    · exact ⟨_, mem_passesOf.mpr (Or.inr (Or.inr (Or.inr (Or.inl ⟨hc, rfl⟩)))),
        rfl⟩
    · exact ⟨_, mem_passesOf.mpr (Or.inr (Or.inr (Or.inr (Or.inr
        (Or.inl ⟨hc, rfl⟩))))), rfl⟩
    · exact ⟨_, mem_passesOf.mpr (Or.inr (Or.inr (Or.inr (Or.inr (Or.inr
        (Or.inl ⟨hc, rfl⟩)))))), rfl⟩
    · exact ⟨_, mem_passesOf.mpr (Or.inr (Or.inr (Or.inr (Or.inr (Or.inr
        (Or.inr (Or.inl ⟨hc, rfl⟩))))))), rfl⟩
    · exact ⟨_, mem_passesOf.mpr (Or.inr (Or.inr (Or.inr (Or.inr (Or.inr
        (Or.inr (Or.inr (Or.inl ⟨hc, rfl⟩)))))))), rfl⟩
    · exact ⟨_, mem_passesOf.mpr (Or.inr (Or.inr (Or.inr (Or.inr (Or.inr
        (Or.inr (Or.inr (Or.inr ⟨hc, rfl⟩)))))))), rfl⟩

/-- Violation-id membership for `table-headers` holds exactly when the
table check produced findings. -/
lemma tableHeaders_id_iff {r : DomNode} :
    "table-headers" ∈ (violationsOf r).map (fun v => v.id) ↔
      0 < (tablesWithoutHeaders r).length := by
  constructor
  · intro hmem
    rcases List.mem_map.mp hmem with ⟨v, hv, hid⟩
    rcases mem_violationsOf.mp hv with
      ⟨hc, rfl⟩ | ⟨hc, rfl⟩ | ⟨hc, rfl⟩ | ⟨hc, rfl⟩ | ⟨hc, rfl⟩ | ⟨hc, rfl⟩ |
      ⟨hc, rfl⟩ | ⟨hc, rfl⟩ | ⟨hc, rfl⟩ | ⟨hc, rfl⟩ | ⟨hc, hc2, rfl⟩ |
      ⟨hc, rfl⟩ | ⟨hc, rfl⟩ | ⟨hc, rfl⟩ | ⟨hc, rfl⟩ | ⟨hc, rfl⟩
    all_goals first
      | exact hc
      | (simp only [imageAltViolation, labelViolation, placeholderViolation, buttonNameViolation, buttonTextViolation, linkNameViolation, linkTextViolation, colorContrastViolation, documentTitleViolation, pageHasH1Violation, multipleH1Violation, htmlLangViolation, metaViewportViolation, headingOrderViolation, emptyHeadingViolation, tableHeadersViolation] at hid; exact absurd hid (by decide))
  · intro hc
    exact List.mem_map.mpr ⟨tableHeadersViolation r,
      mem_violationsOf.mpr (Or.inr (Or.inr (Or.inr (Or.inr (Or.inr (Or.inr
        (Or.inr (Or.inr (Or.inr (Or.inr (Or.inr (Or.inr (Or.inr (Or.inr
          (Or.inr ⟨hc, rfl⟩))))))))))))))), rfl⟩

/-- Violation-id membership for `label` holds exactly when the label check
produced findings. -/
lemma label_id_iff {r : DomNode} :
    "label" ∈ (violationsOf r).map (fun v => v.id) ↔
      0 < (elementsWithoutLabels r).length := by
  constructor
  · intro hmem
    rcases List.mem_map.mp hmem with ⟨v, hv, hid⟩
    rcases mem_violationsOf.mp hv with
      ⟨hc, rfl⟩ | ⟨hc, rfl⟩ | ⟨hc, rfl⟩ | ⟨hc, rfl⟩ | ⟨hc, rfl⟩ | ⟨hc, rfl⟩ |
      ⟨hc, rfl⟩ | ⟨hc, rfl⟩ | ⟨hc, rfl⟩ | ⟨hc, rfl⟩ | ⟨hc, hc2, rfl⟩ |
      ⟨hc, rfl⟩ | ⟨hc, rfl⟩ | ⟨hc, rfl⟩ | ⟨hc, rfl⟩ | ⟨hc, rfl⟩
    all_goals first
      | exact hc
      | (simp only [imageAltViolation, labelViolation, placeholderViolation, buttonNameViolation, buttonTextViolation, linkNameViolation, linkTextViolation, colorContrastViolation, documentTitleViolation, pageHasH1Violation, multipleH1Violation, htmlLangViolation, metaViewportViolation, headingOrderViolation, emptyHeadingViolation, tableHeadersViolation] at hid; exact absurd hid (by decide))
  · intro hc
    exact List.mem_map.mpr ⟨labelViolation r,
      mem_violationsOf.mpr (Or.inr (Or.inl ⟨hc, rfl⟩)), rfl⟩

/-- With no tables in the document the table check yields no findings. -/
lemma tables_empty_no_findings {r : DomNode} (h : (tablesOf r).length = 0) :
    tablesWithoutHeaders r = [] := by
  unfold tablesWithoutHeaders
  rcases List.length_eq_zero.mp h with h'
  rw [h']
  rfl

/-- If every form element is of an excluded input type, the label loop
produces no finding. -/
lemma labelFindingsFrom_excluded (r : DomNode) :
    ∀ (l : List DomNode) (i : Nat),
      (∀ e ∈ l, excludedType e = true) → labelFindingsFrom r i l = [] := by
  intro l
  induction l with
  | nil => intro i _; rfl
  | cons e es ih =>
    intro i h
    unfold labelFindingsFrom
    rw [if_pos (h e (by simp))]
    exact ih (i + 1) (fun x hx => h x (by simp [hx]))

/-- The image loop keeps, in order, exactly the images whose `alt` attribute
is absent, reported with their 1-based running ordinal. -/
lemma imgFindingsFrom_eq_filter :
    ∀ (l : List DomNode) (i : Nat),
      imgFindingsFrom i l =
        ((idxFrom i l).filter (fun p => fullAltMissing (p.2.attr "alt"))).map
          (fun p => imgNode p.2 p.1) := by
  intro l
  induction l with
  | nil => intro i; rfl
  | cons e es ih =>
    intro i
    unfold imgFindingsFrom idxFrom
    rw [ih (i + 1)]
    by_cases h : fullAltMissing (e.attr "alt")
    · simp [List.filter_cons, h]
    · simp [List.filter_cons, h]

/-- The image loop produces one finding per image with an absent `alt`. -/
lemma imgFindingsFrom_length :
    ∀ (l : List DomNode) (i : Nat),
      (imgFindingsFrom i l).length =
        l.countP (fun e => fullAltMissing (e.attr "alt")) := by
  intro l
  induction l with
  | nil => intro i; rfl
  | cons e es ih =>
    intro i
    unfold imgFindingsFrom
    by_cases h : fullAltMissing (e.attr "alt")
    · simp [h, ih (i + 1), List.countP_cons]
    · simp [h, ih (i + 1), List.countP_cons]

/-- Consecutive pairs of a list. -/
def adjPairs {α : Type} : List α → List (α × α)
  | a :: b :: rest => (a, b) :: adjPairs (b :: rest)
  | _ => []

/-- The heading loop flags, against the later element, exactly the
consecutive heading pairs whose level gap exceeds one. -/
lemma skippedFrom_eq_pairs :
    ∀ (hs : List DomNode) (h : DomNode),
      skippedFrom (levelOf h) hs =
        (adjPairs (h :: hs)).filterMap (fun p =>
          if levelOf p.1 + 1 < levelOf p.2 then some (skipNode (levelOf p.1) p.2)
          else none) := by
  intro hs
  induction hs with
  | nil => intro h; rfl
  | cons h2 rest ih =>
    intro h
    unfold skippedFrom adjPairs
    rw [ih h2]
    by_cases hlt : levelOf h + 1 < levelOf h2
    · simp [hlt]
    · simp [hlt]

/-- The `skippedHeadings` collection in consecutive-pair form: the first
heading is never flagged, every later heading is flagged exactly when its
level exceeds its predecessor's by more than one. -/
lemma skippedHeadings_eq_pairs (r : DomNode) :
    skippedHeadings r =
      (adjPairs (headingsOf r)).filterMap (fun p =>
        if levelOf p.1 + 1 < levelOf p.2 then some (skipNode (levelOf p.1) p.2)
        else none) := by
  unfold skippedHeadings
  match h : headingsOf r with
  | [] => rfl
  | hh :: hs => exact skippedFrom_eq_pairs hs hh

/-- The two image-check conditions agree on every attribute value. -/
lemma altMissing_agree (alt : Option String) :
    reducedAltMissing alt = fullAltMissing alt := by
  match alt with
  | none => rfl
  | some s =>
    by_cases h : s = ""
    · simp [reducedAltMissing, fullAltMissing, truthy, h]
    · simp [reducedAltMissing, fullAltMissing, truthy, h]

/-- The reduced engine's image loop agrees with the full engine's. -/
lemma reduced_imgFindings_agree :
    ∀ (l : List DomNode) (i : Nat),
      ReducedEngine.imgFindingsFrom i l = imgFindingsFrom i l := by
  intro l
  induction l with
  | nil => intro i; rfl
  | cons e es ih =>
    intro i
    unfold ReducedEngine.imgFindingsFrom imgFindingsFrom
    rw [altMissing_agree, ih (i + 1)]

/-- The sRGB linearization is nonnegative on nonnegative inputs. -/
lemma srgbLin_nonneg {c : ℝ} (h : 0 ≤ c) : 0 ≤ srgbLin c := by
  unfold srgbLin
  split
  · exact div_nonneg h (by norm_num)
  · exact Real.rpow_nonneg (div_nonneg (by linarith) (by norm_num)) _

/-- Relative luminance is nonnegative. -/
lemma getLuminance_nonneg (r g b : Nat) : 0 ≤ getLuminance r g b := by
  unfold getLuminance
  have h1 : 0 ≤ srgbLin ((r : ℝ) / 255) := srgbLin_nonneg (by positivity)
  have h2 : 0 ≤ srgbLin ((g : ℝ) / 255) := srgbLin_nonneg (by positivity)
  have h3 : 0 ≤ srgbLin ((b : ℝ) / 255) := srgbLin_nonneg (by positivity)
  have c1 : (0:ℝ) ≤ 0.2126 := by norm_num
  have c2 : (0:ℝ) ≤ 0.7152 := by norm_num
  have c3 : (0:ℝ) ≤ 0.0722 := by norm_num
  nlinarith

/-- A colour has contrast ratio exactly one against itself. -/
lemma getContrastRatio_self (a : RGB) : getContrastRatio a a = 1 := by
  simp only [getContrastRatio, max_self, min_self]
  have h : (0:ℝ) < getLuminance a.r a.g a.b + 0.05 := by
    have := getLuminance_nonneg a.r a.g a.b
    linarith
  exact div_self (ne_of_gt h)

/-- The contrast ratio is symmetric in its two colours. -/
lemma getContrastRatio_comm (a b : RGB) :
    getContrastRatio a b = getContrastRatio b a := by
  simp only [getContrastRatio]
  rw [max_comm, min_comm]

/-- The contrast ratio is at least one. -/
lemma one_le_getContrastRatio (a b : RGB) : 1 ≤ getContrastRatio a b := by
  simp only [getContrastRatio]
  have ha := getLuminance_nonneg a.r a.g a.b
  have hb := getLuminance_nonneg b.r b.g b.b
  have hpos : (0:ℝ) <
      min (getLuminance a.r a.g a.b) (getLuminance b.r b.g b.b) + 0.05 := by
    have : (0:ℝ) ≤ min (getLuminance a.r a.g a.b) (getLuminance b.r b.g b.b) :=
      le_min ha hb
    linarith
  rw [one_le_div hpos]
  exact add_le_add_right (min_le_max) _

/-- Href stored for the first link carrying the given accessible text. -/
def firstHref : List DomNode → String → Option String
  | [], _ => none
  | l :: ls, t =>
    if linkAccText l = some t then some (hrefOf l) else firstHref ls t

/-- Appending one binding to an association list only affects keys that were
previously absent. -/
lemma alookup_append_single (m : List (String × String)) (k v t : String) :
    alookup (m ++ [(k, v)]) t =
      match alookup m t with
      | some w => some w
      | none => if k = t then some v else none := by
  induction m with
  | nil => rfl
  | cons p m ih =>
    obtain ⟨k2, v2⟩ := p
    by_cases h : k2 = t
    · simp [alookup, h]
    · simp only [List.cons_append, alookup, if_neg h]
      exact ih

/-- First-href of a list extended on the right. -/
lemma firstHref_snoc (pre : List DomNode) (l : DomNode) (t : String) :
    firstHref (pre ++ [l]) t =
      match firstHref pre t with
      | some h => some h
      | none => if linkAccText l = some t then some (hrefOf l) else none := by
  induction pre with
  | nil => rfl
  | cons x xs ih =>
    by_cases h : linkAccText x = some t
    · simp [firstHref, h]
    · simp only [List.cons_append, firstHref, if_neg h]
      exact ih

/-- Stateless description of one step of the duplicate-text check: link
number `p.1` of the link list `all` is flagged exactly when it has truthy
accessible text already introduced by an earlier link with a different href. -/
def sameTextSpecAt (all : List DomNode) (p : Nat × DomNode) : Option ANode :=
  match linkAccText p.2 with
  | some t =>
    (match firstHref (all.take p.1) t with
     | some h => if h = hrefOf p.2 then none else some (linkDupNode p.2 p.1 t)
     | none => none)
  | none => none

/-- Stateless description of the whole duplicate-text check. -/
def sameTextSpec (all : List DomNode) : List ANode :=
  (idxFrom 0 all).filterMap (sameTextSpecAt all)

/-- The stateful loop with the text-to-first-href map agrees with the
stateless first-occurrence description. -/
lemma sameTextFrom_spec :
    ∀ (ls pre : List DomNode) (m : List (String × String)),
      (∀ t, alookup m t = firstHref pre t) →
      sameTextFrom m pre.length ls =
        (idxFrom pre.length ls).filterMap (sameTextSpecAt (pre ++ ls)) := by
  intro ls
  induction ls with
  | nil => intro pre m hm; rfl
  | cons l rest ih =>
    intro pre m hm
    have hlist : pre ++ l :: rest = (pre ++ [l]) ++ rest := by simp
    have hlen : pre.length + 1 = (pre ++ [l]).length := by simp
    have htake : (pre ++ l :: rest).take pre.length = pre :=
      List.take_left pre (l :: rest)
    rw [show idxFrom pre.length (l :: rest)
          = (pre.length, l) :: idxFrom (pre.length + 1) rest from rfl,
        List.filterMap_cons]
    cases hacc : linkAccText l with
    | none =>
      have hm' : ∀ t, alookup m t = firstHref (pre ++ [l]) t := by
        intro t
        rw [firstHref_snoc]
        cases hf : firstHref pre t with
        | some h2 => rw [hm t, hf]
        | none =>
          rw [hm t, hf, hacc]
          simp
      have tail := ih (pre ++ [l]) m hm'
      rw [← hlen, ← hlist] at tail
      have head : sameTextSpecAt (pre ++ l :: rest) (pre.length, l) = none := by
        simp only [sameTextSpecAt, hacc]
      rw [head]
      show sameTextFrom m pre.length (l :: rest) = _
      unfold sameTextFrom
      rw [hacc]
      exact tail
    | some t =>
      cases hlook : alookup m t with
      | some h =>
        have hm' : ∀ t2, alookup m t2 = firstHref (pre ++ [l]) t2 := by
          intro t2
          rw [firstHref_snoc]
          cases hf : firstHref pre t2 with
          | some h2 => rw [hm t2, hf]
          | none =>
            rw [hm t2, hf, hacc]
            by_cases ht : t = t2
            · exfalso
              rw [← ht] at hf
              rw [hm t, hf] at hlook
              exact Option.noConfusion hlook
            · simp [ht]
        have tail := ih (pre ++ [l]) m hm'
        rw [← hlen, ← hlist] at tail
        have hfirst : firstHref pre t = some h := (hm t).symm.trans hlook
        have head : sameTextSpecAt (pre ++ l :: rest) (pre.length, l) =
            (if h = hrefOf l then none else some (linkDupNode l pre.length t)) := by
          simp only [sameTextSpecAt, hacc, htake, hfirst]
        rw [head]
        show sameTextFrom m pre.length (l :: rest) = _
        simp only [sameTextFrom, hacc, hlook]
        by_cases heq : h = hrefOf l
        · simp [heq, tail]
        · simp [heq, tail]
      | none =>
        have hm' : ∀ t2, alookup (m ++ [(t, hrefOf l)]) t2
            = firstHref (pre ++ [l]) t2 := by
          intro t2
          rw [alookup_append_single, firstHref_snoc, hm t2]
          cases hf : firstHref pre t2 with
          | some h2 => rfl
          | none =>
            simp only [hacc, Option.some.injEq]
        have tail := ih (pre ++ [l]) (m ++ [(t, hrefOf l)]) hm'
        rw [← hlen, ← hlist] at tail
        have hfirst : firstHref pre t = none := (hm t).symm.trans hlook
        have head : sameTextSpecAt (pre ++ l :: rest) (pre.length, l) = none := by
          simp only [sameTextSpecAt, hacc, htake, hfirst]
        rw [head]
        show sameTextFrom m pre.length (l :: rest) = _
        simp only [sameTextFrom, hacc, hlook]
        exact tail

/-- The engine's duplicate-text collection in stateless first-occurrence
form: the first occurrence of a text is never flagged, each later link whose
href differs from the first-seen href for its text is flagged. -/
lemma linksWithSameText_eq_spec (r : DomNode) :
    linksWithSameText r = sameTextSpec (linksOf r) := by
  unfold linksWithSameText sameTextSpec
  have h := sameTextFrom_spec (linksOf r) [] [] (fun t => rfl)
  simpa using h

/-- The body of the hex regex succeeds exactly on six hex digits. -/
lemma hexMatchList_isSome (rest : List Char) :
    (hexMatchList rest).isSome = (rest.length = 6 && rest.all isHexDigitC) := by
  rcases rest with _ | ⟨a, _ | ⟨b, _ | ⟨c, _ | ⟨d, _ | ⟨e, _ | ⟨f, _ | ⟨g, rest⟩⟩⟩⟩⟩⟩⟩
  · simp [hexMatchList]
  · simp [hexMatchList]
  · simp [hexMatchList]
  · simp [hexMatchList]
  · simp [hexMatchList]
  · simp [hexMatchList]
  · by_cases hP : (isHexDigitC a && isHexDigitC b && isHexDigitC c &&
        isHexDigitC d && isHexDigitC e && isHexDigitC f)
    · simp only [Bool.and_eq_true] at hP
      simp [hexMatchList, hP]
    · simp only [hexMatchList, if_neg hP, Option.isSome_none]
      rw [eq_comm, Bool.and_eq_false_iff]
      right
      simpa using hP
  · simp only [hexMatchList, Option.isSome_none]
    rw [eq_comm, Bool.and_eq_false_iff]
    left
    exact decide_eq_false (by intro hcon; simp at hcon)

/-- The named-colour lookup succeeds exactly on the key vocabulary. -/
lemma alookup_isSome {β : Type} (l : List (String × β)) (x : String) :
    (alookup l x).isSome = (l.map Prod.fst).contains x := by
  induction l with
  | nil => rfl
  | cons p m ih =>
    obtain ⟨k, v⟩ := p
    by_cases h : k = x
    · simp [alookup, h]
    · simp only [alookup, if_neg h, List.map_cons, List.contains_cons]
      rw [ih]
      simp [Ne.symm h]

/-- The named fallback of `parseColor` agrees with the spec-side vocabulary
test. -/
lemma named_fallback_isSome (s : String) :
    (alookup namedColors (toLowerStr s)).isSome = specNamedForm s := by
  rw [alookup_isSome]
  rfl

/-- On a `#`-headed string, `parseColor` succeeds exactly on the spec-side
6-digit hex form. -/
lemma parseColor_hash {s : String} (h : s.toList.head? = some '#') :
    (parseColor s).isSome = specHexForm s := by
  unfold parseColor
  rw [if_pos h]
  obtain ⟨tail, hl⟩ : ∃ tail, s.toList = '#' :: tail := by
    cases hl : s.toList with
    | nil => rw [hl] at h; exact absurd h (by simp)
    | cons c t =>
      rw [hl] at h
      simp at h
      exact ⟨t, by rw [h]⟩
  unfold hexToRgb specHexForm
  rw [hl]
  exact hexMatchList_isSome tail

/-- On a string not starting with `#`, `parseColor` succeeds exactly when the
unanchored rgb search succeeds on an `rgb`-prefixed string or the whole
string is a named colour. -/
lemma parseColor_nonhash {s : String} (h : ¬ s.toList.head? = some '#') :
    (parseColor s).isSome =
      ((List.isPrefixOf ("rgb".toList) s.toList && (rgbSearch s.toList).isSome)
        || specNamedForm s) := by
  unfold parseColor
  rw [if_neg h]
  by_cases hp : List.isPrefixOf ("rgb".toList) s.toList
  · rw [if_pos hp]
    cases hs : rgbSearch s.toList with
    | some v =>
      obtain ⟨a, b, c⟩ := v
      simp [hp, hs]
      exact Or.inl (List.isPrefixOf_iff_prefix.mp hp)
    | none =>
      simp [hs, named_fallback_isSome]
  · rw [if_neg hp]
    simp [named_fallback_isSome]
    intro hpre
    exact absurd (List.isPrefixOf_iff_prefix.mpr hpre) hp

/-- Every serialized violation carries at most five nodes, which are the
first five findings of the corresponding unserialized violation. -/
lemma serialize_nodes_le (res : AccessibilityResult) :
    ∀ v ∈ (serializeReport res).violations,
      v.nodes.length ≤ 5 ∧ ∃ w ∈ res.violations, v.nodes = w.nodes.take 5 := by
  intro v hv
  rcases List.mem_map.mp hv with ⟨w, hw, rfl⟩
  refine ⟨?_, ⟨w, hw, rfl⟩⟩
  simp [serializeViolation]

/-- A violation with id `color-contrast` carries exactly the first ten
contrast findings. -/
lemma colorContrast_nodes {r : DomNode} {v : Violation}
    (hv : v ∈ violationsOf r) (hid : v.id = "color-contrast") :
    v.nodes = (contrastIssues r).take 10 := by
  rcases mem_violationsOf.mp hv with
    ⟨hc, rfl⟩ | ⟨hc, rfl⟩ | ⟨hc, rfl⟩ | ⟨hc, rfl⟩ | ⟨hc, rfl⟩ | ⟨hc, rfl⟩ |
    ⟨hc, rfl⟩ | ⟨hc, rfl⟩ | ⟨hc, rfl⟩ | ⟨hc, rfl⟩ | ⟨hc, hc2, rfl⟩ |
    ⟨hc, rfl⟩ | ⟨hc, rfl⟩ | ⟨hc, rfl⟩ | ⟨hc, rfl⟩ | ⟨hc, rfl⟩
  all_goals first
    | rfl
    | (simp only [imageAltViolation, labelViolation, placeholderViolation,
        buttonNameViolation, buttonTextViolation, linkNameViolation,
        linkTextViolation, colorContrastViolation, documentTitleViolation,
        pageHasH1Violation, multipleH1Violation, htmlLangViolation,
        metaViewportViolation, headingOrderViolation, emptyHeadingViolation,
        tableHeadersViolation] at hid; exact absurd hid (by decide))

/-- Concrete document: two links both reading "Click here" with different
href values. -/
def docLinksRoot : DomNode :=
  .elem "html" []
    [.elem "body" []
      [.elem "a" [("href", "/a")] [.text "Click here"],
       .elem "a" [("href", "/b")] [.text "Click here"]]]

/-- Concrete document whose only form element is a hidden input. -/
def docInputHiddenRoot : DomNode :=
  .elem "html" []
    [.elem "body" [] [.elem "input" [("type", "hidden")] []]]

/-- Concrete document with one labelled text input and nothing else
label-relevant. -/
def docInputLabeledRoot : DomNode :=
  .elem "html" []
    [.elem "body" [] [.elem "input" [("type", "text"), ("aria-label", "Name")] []]]

/-- Concrete document with one image lacking an `alt` attribute and no other
issues. -/
def docImgNoAltRoot : DomNode :=
  .elem "html" [("lang", "en")]
    [.elem "head" []
      [.elem "title" [] [.text "T"],
       .elem "meta" [("name", "viewport"), ("content", "width=device-width")] []],
     .elem "body" []
      [.elem "h1" [] [.text "Hi"],
       .elem "img" [("src", "x")] []]]

/-- Concrete document whose only image carries an empty `alt=""`. -/
def docImgEmptyAltRoot : DomNode :=
  .elem "html" [("lang", "en")]
    [.elem "head" []
      [.elem "title" [] [.text "T"],
       .elem "meta" [("name", "viewport"), ("content", "width=device-width")] []],
     .elem "body" []
      [.elem "h1" [] [.text "Hi"],
       .elem "img" [("src", "x"), ("alt", "")] []]]

/-- The h4 element of the skipped-heading document. -/
def h4Elem : DomNode := .elem "h4" [] [.text "D"]

/-- Concrete document with headings h1, h2, h4 (h3 skipped). -/
def docH124Root : DomNode :=
  .elem "html" []
    [.elem "body" []
      [.elem "h1" [] [.text "A"], .elem "h2" [] [.text "B"], h4Elem]]

/-- Concrete document with headings h1, h2, h3 in order. -/
def docH123Root : DomNode :=
  .elem "html" []
    [.elem "body" []
      [.elem "h1" [] [.text "A"], .elem "h2" [] [.text "B"],
       .elem "h3" [] [.text "C"]]]

/-- Concrete document with twelve images lacking `alt` and no other issues. -/
def docImg12Root : DomNode :=
  .elem "html" [("lang", "en")]
    [.elem "head" []
      [.elem "title" [] [.text "T"],
       .elem "meta" [("name", "viewport"), ("content", "width=device-width")] []],
     .elem "body" []
      [.elem "h1" [] [.text "Hi"],
       .elem "img" [("src", "1")] [], .elem "img" [("src", "2")] [],
       .elem "img" [("src", "3")] [], .elem "img" [("src", "4")] [],
       .elem "img" [("src", "5")] [], .elem "img" [("src", "6")] [],
       .elem "img" [("src", "7")] [], .elem "img" [("src", "8")] [],
       .elem "img" [("src", "9")] [], .elem "img" [("src", "10")] [],
       .elem "img" [("src", "11")] [], .elem "img" [("src", "12")] []]]

/-- Text element styled black on black, which has contrast ratio one. -/
def pBlackElem : DomNode :=
  .elem "p" [("style", "color: black; background-color: black")] [.text "x"]

/-- Concrete document with one black-on-black paragraph. -/
def docContrastRoot : DomNode :=
  .elem "html" [] [.elem "body" [] [pBlackElem]]

/-- Claim C1 (counterexample): on a document with two "Click here" links to
different hrefs, the duplicate-text check does record exactly one finding,
but no `link-same-text-diff-target` entry ever reaches the report's
violations list, contrary to the claim. -/
theorem c1_counterexample :
    (linksWithSameText docLinksRoot).length = 1 ∧
    (((runAccessibilityChecks docLinksRoot).violations.map (fun v => v.id)).contains
        "link-same-text-diff-target") = false := by
  constructor
  · decide
  · decide

set_option maxRecDepth 8000 in
/-- Claim C1 (amended): the duplicate-text check tracks a map from accessible
text to the first href seen, never flags the first occurrence of a text, and
flags each later link whose href conflicts with the first-seen href — the
two-"Click here"-link document yields exactly one finding, for the second
link only — but the resulting list is only a computed collection: it is never
appended to the violations, so no report contains a
`link-same-text-diff-target` entry. -/
theorem c1_link_same_text :
    (∀ r : DomNode, linksWithSameText r = sameTextSpec (linksOf r)) ∧
    (∀ r : DomNode,
      (((runAccessibilityChecks r).violations.map (fun v => v.id)).contains
          "link-same-text-diff-target") = false) ∧
    linksWithSameText docLinksRoot =
      [linkDupNode (.elem "a" [("href", "/b")] [.text "Click here"]) 1
        "Click here"] :=
  ⟨linksWithSameText_eq_spec,
   fun _ => violationIds_contains_false (by decide),
   by decide⟩

/-- Claim C2 (counterexample): a document whose single text input is
aria-labelled has an applicable element and zero label findings, yet the
emitted pass is identified `form-labels`, not by the rule id `label` as the
claim states. -/
theorem c2_counterexample :
    (formElementsOf docInputLabeledRoot).length = 1 ∧
    elementsWithoutLabels docInputLabeledRoot = [] ∧
    (((runAccessibilityChecks docInputLabeledRoot).passes.map (fun p => p.id)).contains
        "label") = false := by
  refine ⟨by decide, by decide, by decide⟩

/-- Claim C2 (amended): pass entries always use the nine ids image-alt,
document-title, html-has-lang, page-has-heading-one, meta-viewport,
form-labels, button-names, link-names, heading-structure (never label,
button-name, link-name or heading-order); image-alt, button-names,
link-names and heading-structure pass exactly when at least one applicable
element exists and the rule produced zero findings; form-labels
applicability counts every
input/textarea/select including excluded input types, so a document whose
only inputs are excluded yields no label violation but does yield the
form-labels pass; the page-has-heading-one pass requires exactly one h1; a
document with zero tables yields neither a table-headers violation nor any
table-headers pass. -/
theorem c2_pass_policy :
    (∀ (r : DomNode) (s : String),
       s ∈ (runAccessibilityChecks r).passes.map (fun p => p.id) →
       s ∈ allPassIds) ∧
    (∀ r : DomNode,
       "image-alt" ∈ (runAccessibilityChecks r).passes.map (fun p => p.id) ↔
       0 < (imagesOf r).length ∧ (imagesWithoutAlt r).length = 0) ∧
    (∀ r : DomNode,
       "form-labels" ∈ (runAccessibilityChecks r).passes.map (fun p => p.id) ↔
       0 < (formElementsOf r).length ∧ (elementsWithoutLabels r).length = 0) ∧
    (∀ r : DomNode,
       "page-has-heading-one" ∈
         (runAccessibilityChecks r).passes.map (fun p => p.id) ↔
       (h1sOf r).length = 1) ∧
    (∀ r : DomNode,
       "button-names" ∈ (runAccessibilityChecks r).passes.map (fun p => p.id) ↔
       0 < (buttonsOf r).length ∧ (buttonsWithoutText r).length = 0) ∧
    (∀ r : DomNode,
       "link-names" ∈ (runAccessibilityChecks r).passes.map (fun p => p.id) ↔
       0 < (linksOf r).length ∧ (linksWithoutText r).length = 0) ∧
    (∀ r : DomNode,
       "heading-structure" ∈
         (runAccessibilityChecks r).passes.map (fun p => p.id) ↔
       0 < (headingsOf r).length ∧ (skippedHeadings r).length = 0) ∧
    (∀ r : DomNode,
       (((runAccessibilityChecks r).passes.map (fun p => p.id)).contains "label"
           = false) ∧
       (((runAccessibilityChecks r).passes.map (fun p => p.id)).contains
           "button-name" = false) ∧
       (((runAccessibilityChecks r).passes.map (fun p => p.id)).contains
           "link-name" = false) ∧
       (((runAccessibilityChecks r).passes.map (fun p => p.id)).contains
           "heading-order" = false) ∧
       (((runAccessibilityChecks r).passes.map (fun p => p.id)).contains
           "table-headers" = false)) ∧
    (∀ r : DomNode, (tablesOf r).length = 0 →
       "table-headers" ∉
         (runAccessibilityChecks r).violations.map (fun v => v.id)) ∧
    (∀ r : DomNode, (∀ e ∈ formElementsOf r, excludedType e = true) →
       elementsWithoutLabels r = [] ∧
       "label" ∉ (runAccessibilityChecks r).violations.map (fun v => v.id) ∧
       (0 < (formElementsOf r).length →
         "form-labels" ∈ (runAccessibilityChecks r).passes.map (fun p => p.id))) := by
  refine ⟨?_, ?_, ?_, ?_, ?_, ?_, ?_, ?_, ?_, ?_⟩
  · intro r s hs
    rcases List.mem_map.mp hs with ⟨p, hp, rfl⟩
    exact passes_id_mem_all p hp
  · intro r
    simp only [runAccessibilityChecks]
    rw [mem_passIds]
    simp
  · intro r
    simp only [runAccessibilityChecks]
    rw [mem_passIds]
    simp
  · intro r
    simp only [runAccessibilityChecks]
    rw [mem_passIds]
    simp
  · intro r
    simp only [runAccessibilityChecks]
    rw [mem_passIds]
    simp
  · intro r
    simp only [runAccessibilityChecks]
    rw [mem_passIds]
    simp
  · intro r
    simp only [runAccessibilityChecks]
    rw [mem_passIds]
    simp
  · intro r
    exact ⟨passIds_contains_false (by decide), passIds_contains_false (by decide),
      passIds_contains_false (by decide), passIds_contains_false (by decide),
      passIds_contains_false (by decide)⟩
  · intro r h
    simp only [runAccessibilityChecks]
    rw [tableHeaders_id_iff]
    rw [tables_empty_no_findings h]
    simp
  · intro r h
    have h0 : elementsWithoutLabels r = [] :=
      labelFindingsFrom_excluded r (formElementsOf r) 0 h
    refine ⟨h0, ?_, ?_⟩
    · simp only [runAccessibilityChecks]
      rw [label_id_iff, h0]
      simp
    · intro hlen
      simp only [runAccessibilityChecks]
      rw [mem_passIds]
      refine Or.inr (Or.inr (Or.inr (Or.inr (Or.inr (Or.inl ⟨⟨hlen, ?_⟩, rfl⟩)))))
      rw [h0]
      rfl

/-- Witness for claim C2's amended theorem at the hidden-input document. -/
theorem c2_witness :
    elementsWithoutLabels docInputHiddenRoot = [] ∧
    (((runAccessibilityChecks docInputHiddenRoot).violations.map
        (fun v => v.id)).contains "label") = false ∧
    "form-labels" ∈ (runAccessibilityChecks docInputHiddenRoot).passes.map
      (fun p => p.id) ∧
    (((runAccessibilityChecks docInputHiddenRoot).violations.map
        (fun v => v.id)).contains "table-headers") = false := by
  have h := c2_pass_policy
  obtain ⟨h1, h2, h3⟩ :=
    h.2.2.2.2.2.2.2.2.2 docInputHiddenRoot (by decide)
  refine ⟨h1, by simpa using h2, h3 (by decide),
    by simpa using h.2.2.2.2.2.2.2.2.1 docInputHiddenRoot (by decide)⟩

/-- Claim C3 (counterexample): on a document with an absent root element,
evaluation aborts with a generic TypeError (null attribute access), which is
not the distinct invalid-document error the claim asserts. -/
theorem c3_counterexample :
    runAccessibilityChecksDoc ⟨none⟩ = Except.error JsError.typeError ∧
    decide (JsError.typeError = JsError.invalidDocument) = false :=
  ⟨rfl, by decide⟩

/-- Claim C3 (amended): with a null root, evaluation never returns a report —
it aborts with a generic TypeError raised by the null access in the html-lang
check, not with a distinct invalid-document error; for every document with a
root element, evaluation returns a report and raises no error. -/
theorem c3_error_model :
    (∀ d : Document, d.root = none →
      runAccessibilityChecksDoc d = Except.error JsError.typeError) ∧
    (∀ (d : Document) (r : DomNode), d.root = some r →
      runAccessibilityChecksDoc d = Except.ok (runAccessibilityChecks r)) := by
  constructor
  · intro d h
    unfold runAccessibilityChecksDoc
    rw [h]
  · intro d r h
    unfold runAccessibilityChecksDoc
    rw [h]

/-- Witness for claim C3's amended theorem at concrete documents. -/
theorem c3_witness :
    runAccessibilityChecksDoc ⟨none⟩ = Except.error JsError.typeError ∧
    runAccessibilityChecksDoc ⟨some docImgNoAltRoot⟩ =
      Except.ok (runAccessibilityChecks docImgNoAltRoot) :=
  ⟨c3_error_model.1 ⟨none⟩ rfl, c3_error_model.2 ⟨some docImgNoAltRoot⟩ _ rfl⟩

set_option maxRecDepth 8000 in
/-- Claim C4 (confirmed): the image rule produces a finding exactly for
images whose `alt` attribute is entirely absent (an empty `alt=""` is never a
finding); a document with one alt-less image and no other issues yields
exactly one image-alt violation with one finding and no image-alt pass, and a
document whose only image has `alt=""` yields an image-alt pass and no
image-alt violation. -/
theorem c4_image_alt :
    fullAltMissing none = true ∧
    fullAltMissing (some "") = false ∧
    (∀ r : DomNode,
      imagesWithoutAlt r =
        ((idxFrom 0 (imagesOf r)).filter
          (fun p => fullAltMissing (p.2.attr "alt"))).map
            (fun p => imgNode p.2 p.1)) ∧
    (∀ r : DomNode,
      (imagesWithoutAlt r).length =
        (imagesOf r).countP (fun e => fullAltMissing (e.attr "alt"))) ∧
    ((runAccessibilityChecks docImgNoAltRoot).violations.map
        (fun v => (v.id, v.nodes.length)) = [("image-alt", 1)]) ∧
    (((runAccessibilityChecks docImgNoAltRoot).passes.map (fun p => p.id)).contains
        "image-alt" = false) ∧
    ((runAccessibilityChecks docImgEmptyAltRoot).violations = []) ∧
    (((runAccessibilityChecks docImgEmptyAltRoot).passes.map (fun p => p.id)).contains
        "image-alt" = true) :=
  ⟨rfl, rfl,
   fun r => imgFindingsFrom_eq_filter (imagesOf r) 0,
   fun r => imgFindingsFrom_length (imagesOf r) 0,
   by decide, by decide, by decide, by decide⟩

set_option maxRecDepth 8000 in
/-- Claim C5 (confirmed): scanning h1..h6 in document order, the
heading-order rule flags a heading exactly when its level exceeds the
immediately preceding heading's level by more than one (consecutive-pair
comparison only); headings h1, h2, h4 yield exactly one finding referencing
the h4 element, and h1, h2, h3 yield none. -/
theorem c5_heading_order :
    (∀ r : DomNode,
      skippedHeadings r =
        (adjPairs (headingsOf r)).filterMap (fun p =>
          if levelOf p.1 + 1 < levelOf p.2 then
            some (skipNode (levelOf p.1) p.2)
          else none)) ∧
    skippedHeadings docH124Root = [skipNode 2 h4Elem] ∧
    (((runAccessibilityChecks docH124Root).violations.map (fun v => v.id)).contains
        "heading-order" = true) ∧
    skippedHeadings docH123Root = [] ∧
    (((runAccessibilityChecks docH123Root).violations.map (fun v => v.id)).contains
        "heading-order" = false) :=
  ⟨skippedHeadings_eq_pairs, by decide, by decide, by decide, by decide⟩

/-- Claim C6 (counterexample): the rgb regex is unanchored, so the input
"rgb(1, 2, 3)x" — which is not a 6-digit hex string, not exactly of the form
rgb(r, g, b), and not a named colour — still parses to a result, contrary to
the claim that every other input yields no result. -/
theorem c6_counterexample :
    parseColor "rgb(1, 2, 3)x" = some ⟨1, 2, 3⟩ ∧
    specHexForm "rgb(1, 2, 3)x" = false ∧
    specRgbExact "rgb(1, 2, 3)x" = false ∧
    specNamedForm "rgb(1, 2, 3)x" = false :=
  ⟨by decide, by decide, by decide, by decide⟩

/-- Claim C6 (amended): parseColor returns a result for 6-digit hex strings
(#rrggbb, case-insensitive), for the named colours black, white, red, green,
blue, yellow, gray, grey (case-insensitive), and for any string that starts
with "rgb" in which the unanchored pattern rgb(r, g, b) with integer
channels occurs anywhere (so surrounding text is accepted); every other
input yields no result; parseColor("#000000") = (0,0,0),
parseColor("#FFFFFF") = (255,255,255), parseColor("not-a-color") = none. -/
theorem c6_parse_color :
    (∀ s : String, s.toList.head? = some '#' →
      (parseColor s).isSome = specHexForm s) ∧
    (∀ s : String, ¬s.toList.head? = some '#' →
      (parseColor s).isSome =
        ((List.isPrefixOf ("rgb".toList) s.toList && (rgbSearch s.toList).isSome)
          || specNamedForm s)) ∧
    parseColor "#000000" = some ⟨0, 0, 0⟩ ∧
    parseColor "#FFFFFF" = some ⟨255, 255, 255⟩ ∧
    parseColor "not-a-color" = none ∧
    parseColor "rgb(1, 2, 3)x" = some ⟨1, 2, 3⟩ :=
  ⟨fun _ h => parseColor_hash h, fun _ h => parseColor_nonhash h,
   by decide, by decide, by decide, by decide⟩

/-- Witness for claim C6's amended theorem at concrete inputs. -/
theorem c6_witness :
    (parseColor "#00ff00").isSome = specHexForm "#00ff00" ∧
    (parseColor "GREY").isSome =
      ((List.isPrefixOf ("rgb".toList) "GREY".toList &&
          (rgbSearch "GREY".toList).isSome) || specNamedForm "GREY") :=
  ⟨c6_parse_color.1 "#00ff00" (by decide),
   c6_parse_color.2.1 "GREY" (by decide)⟩

/-- Claim C7 (confirmed): the contrast ratio is symmetric, equals one on
identical colours, is always at least one, and is computed as
(max(L1,L2)+0.05)/(min(L1,L2)+0.05) over the sRGB relative luminances. -/
theorem c7_contrast_props :
    (∀ a b : RGB, getContrastRatio a b = getContrastRatio b a) ∧
    (∀ a : RGB, getContrastRatio a a = 1) ∧
    (∀ a b : RGB, 1 ≤ getContrastRatio a b) ∧
    (∀ a b : RGB,
      getContrastRatio a b =
        (max (getLuminance a.r a.g a.b) (getLuminance b.r b.g b.b) + 0.05) /
          (min (getLuminance a.r a.g a.b) (getLuminance b.r b.g b.b) + 0.05)) :=
  ⟨getContrastRatio_comm, getContrastRatio_self, one_le_getContrastRatio,
   fun _ _ => rfl⟩

/-- Claim C9 (confirmed): the full engine's image condition (alt equals
null) and the reduced engine's condition (alt falsy and not the empty
string) agree on every attribute value, so the two engines produce identical
image-alt finding lists on every document. -/
theorem c9_reduced_image_alt :
    (∀ alt : Option String, reducedAltMissing alt = fullAltMissing alt) ∧
    (∀ r : DomNode, ReducedEngine.imagesWithoutAlt r = imagesWithoutAlt r) :=
  ⟨altMissing_agree, fun r => reduced_imgFindings_agree (imagesOf r) 0⟩

/-- Claim C10 (confirmed): parseColor performs no range validation on rgb()
channels — "rgb(999, 0, 0)" parses to a result carrying the out-of-range
channel 999 > 255, and that result is a legal input to getContrastRatio,
which still yields a ratio of at least one. -/
theorem c10_rgb_range :
    parseColor "rgb(999, 0, 0)" = some ⟨999, 0, 0⟩ ∧
    255 < (999 : Nat) ∧
    1 ≤ getContrastRatio ⟨999, 0, 0⟩ ⟨0, 0, 0⟩ :=
  ⟨by decide, by decide, one_le_getContrastRatio _ _⟩

/-- Black-on-black has contrast ratio one, which is below 4.5. -/
lemma black_on_black_low :
    getContrastRatio ⟨0, 0, 0⟩ ⟨0, 0, 0⟩ < (4.5 : ℝ) := by
  rw [getContrastRatio_self]
  norm_num

/-- The contrast finding reported for the black-on-black paragraph. -/
noncomputable def ccNode : ANode :=
  ⟨pBlackElem.outerHTML, ["p:nth-child(1)"],
   "Text has insufficient color contrast (" ++
     toFixed2 (getContrastRatio ⟨0, 0, 0⟩ ⟨0, 0, 0⟩) ++ ":1, requires " ++
     "4.5" ++ ":1)"⟩

/-- The contrast evaluator flags the black-on-black paragraph. -/
lemma contrastIssues_black : contrastIssues docContrastRoot = [ccNode] := by
  show contrastFindingsFrom 0 (textElementsOf docContrastRoot) = [ccNode]
  rw [show textElementsOf docContrastRoot = [pBlackElem] from rfl]
  show contrastCheckElem pBlackElem 0 ++ contrastFindingsFrom 1 [] = [ccNode]
  rw [show contrastFindingsFrom 1 ([] : List DomNode) = [] from rfl,
    List.append_nil]
  unfold contrastCheckElem
  rw [show contrastPre pBlackElem = some (⟨0, 0, 0⟩, ⟨0, 0, 0⟩, false) from by
    decide]
  simp only [Bool.false_eq_true, if_false, if_pos black_on_black_low]
  rfl

set_option maxRecDepth 16000 in
/-- Claim C8 (confirmed): every violation in the serialized report carries at
most five nodes, each being the first five (in order) of the engine's
findings for that rule; the color-contrast rule's findings are capped at ten
inside the evaluator (the first ten contrast findings, in order); a rule
producing twelve qualifying elements serializes with exactly five nodes,
which are the first five in document order. -/
theorem c8_caps :
    (∀ (res : AccessibilityResult) (v : Violation),
       v ∈ (serializeReport res).violations →
       v.nodes.length ≤ 5 ∧ ∃ w ∈ res.violations, v.nodes = w.nodes.take 5) ∧
    (∀ (r : DomNode) (v : Violation),
       v ∈ (runAccessibilityChecks r).violations → v.id = "color-contrast" →
       v.nodes = (contrastIssues r).take 10 ∧ v.nodes.length ≤ 10) ∧
    ((serializeReport (runAccessibilityChecks docImg12Root)).violations.map
        (fun v => (v.id, v.nodes)) =
      [("image-alt", (imagesWithoutAlt docImg12Root).take 5)]) ∧
    (imagesWithoutAlt docImg12Root).length = 12 ∧
    ((imagesWithoutAlt docImg12Root).take 5).length = 5 := by
  refine ⟨serialize_nodes_le, ?_, by decide, by decide, by decide⟩
  intro r v hv hid
  simp only [runAccessibilityChecks] at hv
  have h := colorContrast_nodes hv hid
  refine ⟨h, ?_⟩
  rw [h]
  simp

set_option maxRecDepth 16000 in
/-- Witness for claim C8 at the twelve-image document and at the
black-on-black document, whose color-contrast violation carries its capped
findings list. -/
theorem c8_witness :
    ((serializeViolation (imageAltViolation docImg12Root)).nodes.length ≤ 5 ∧
      ∃ w ∈ (runAccessibilityChecks docImg12Root).violations,
        (serializeViolation (imageAltViolation docImg12Root)).nodes =
          w.nodes.take 5) ∧
    ((colorContrastViolation docContrastRoot).nodes =
        (contrastIssues docContrastRoot).take 10 ∧
      (colorContrastViolation docContrastRoot).nodes.length ≤ 10) := by
  have hclen : 0 < (contrastIssues docContrastRoot).length := by
    rw [contrastIssues_black]
    simp
  have hmem : colorContrastViolation docContrastRoot ∈
      (runAccessibilityChecks docContrastRoot).violations := by
    simp only [runAccessibilityChecks]
    exact mem_violationsOf.mpr (Or.inr (Or.inr (Or.inr (Or.inr (Or.inr (Or.inr
      (Or.inr (Or.inl ⟨hclen, rfl⟩))))))))
  refine ⟨?_, c8_caps.2.1 docContrastRoot (colorContrastViolation docContrastRoot)
    hmem rfl⟩
  refine c8_caps.1 (runAccessibilityChecks docImg12Root)
    (serializeViolation (imageAltViolation docImg12Root)) ?_
  show serializeViolation (imageAltViolation docImg12Root) ∈
    (runAccessibilityChecks docImg12Root).violations.map serializeViolation
  refine List.mem_map.mpr ⟨imageAltViolation docImg12Root, ?_, rfl⟩
  simp only [runAccessibilityChecks]
  exact mem_violationsOf.mpr (Or.inl ⟨by decide, rfl⟩)
